import Mathlib

/-!
# SolidBeam dashboard client (`static/js/app.js`)

A shallow embedding of the browser-side dashboard controller.

* The page is a record `Page` holding the list of observable effects performed so
  far (`log`, oldest first) and whether the loading modal has a Bootstrap instance.
  Every handler is a function `Page → Page` that appends to the log.
* The network is not part of the program: the outcome of every `fetch` a handler
  performs is an explicit argument of type `FetchResult`.
* An `async` function that is called without `await` issues its request at the
  place of the call and settles after the synchronous remainder of its caller; the
  two halves are the `…Issue` and `…Settle` definitions.
* JSON numbers are modelled by the rational value they denote (`ℚ`), counts by
  `Nat`.  `Math.round`, `Math.floor` and `Number.prototype.toFixed` are exact
  functions of that value; the division `uptime / 86400` rounds its quotient to
  the nearest double (`doubleDiv`).  `Math.log` is replaced by the real logarithm,
  so that `Math.floor(Math.log(b) / Math.log(1024))` is `Nat.log 1024 b`.
* Each handler is followed from its call to the last effect it causes; effects of
  other handlers that the browser could interleave are not part of its trace.
* `Date.prototype.toLocaleString` and `String.prototype.toUpperCase` depend on the
  host; they are the fields of `Host`.
-/

namespace SolidBeam

/-! ## Effects -/

/-- A JavaScript `Error` value, identified by its `message`. -/
structure JSError where
  message : String
  deriving DecidableEq, Repr

/-- The file chosen in the upload form (`fileInput.files[0]`). -/
structure File where
  name : String
  deriving DecidableEq, Repr

/-- Request bodies built by the handlers.  `JSON.stringify({ path, recursive })` and
the multipart `FormData` with its single field `file` are kept symbolic. -/
inductive RequestBody where
  | json (path : String) (recursive : Bool)
  | formData (file : File)
  deriving DecidableEq, Repr

/-- The `options` object handed to `fetch`; an absent key is `none`. -/
structure RequestOptions where
  method : Option String := none
  headers : Option (List (String × String)) := none
  body : Option RequestBody := none
  deriving DecidableEq, Repr

/-- Observable effects, in the order the handlers perform them. -/
inductive Event where
  | fetch (endpoint : String) (options : RequestOptions)
  | consoleError (label : String) (error : String)
  | alert (type : String) (message : String)
  | confirm (message : String)
  | setText (id : String) (text : String)
  | setWidth (id : String) (width : String)
  | setClassName (id : String) (className : String)
  | setInnerHTML (id : String) (html : String)
  | setValue (id : String) (value : String)
  | modalShow (id : String)
  | modalHide (id : String)
  deriving DecidableEq, Repr

/-- The page as far as the handlers can change it. -/
structure Page where
  modalInstance : Bool
  log : List Event
  deriving DecidableEq, Repr

/-- Append one effect to the log. -/
def Page.emit (p : Page) (e : Event) : Page :=
  { p with log := p.log ++ [e] }

/-- What the network answers to one `fetch`: the promise rejects, or it resolves to
a response with a status whose `json()` either yields a value or rejects. -/
inductive FetchResult (β : Type) where
  | networkError (error : JSError)
  | response (status : Nat) (json : Except JSError β)

/-- `Response.ok`: the status is in the range 200-299. -/
def responseOk (status : Nat) : Bool :=
  decide (200 ≤ status) && decide (status ≤ 299)

/-! ## API client -/

/-- `defaultOptions` of `apiCall`. -/
def defaultOptions : RequestOptions :=
  { method := some "GET", headers := some [("Content-Type", "application/json")] }

/-- The object spread `{ ...defaultOptions, ...options }`: a key of `options` wins. -/
def spread (d o : RequestOptions) : RequestOptions :=
  { method := o.method <|> d.method
    headers := o.headers <|> d.headers
    body := o.body <|> d.body }

/-- `apiCall` up to its first `await`: the request is sent. -/
def apiCallIssue (endpoint : String) (options : RequestOptions) (p : Page) : Page :=
  let finalOptions := spread defaultOptions options
  p.emit (Event.fetch endpoint finalOptions)

/-- The body of the `try` block of `apiCall` once `fetch` has settled. -/
def apiCallTry {β : Type} (r : FetchResult β) : Except JSError β :=
  match r with
  | FetchResult.networkError error => Except.error error
  | FetchResult.response status json =>
    if !responseOk status then
      Except.error { message := "HTTP error! status: " ++ toString status }
    else
      json

/-- `apiCall` after its first `await`: the `catch` block logs and rethrows. -/
def apiCallSettle {β : Type} (r : FetchResult β) (p : Page) : Page × Except JSError β :=
  match apiCallTry r with
  | Except.ok value => (p, Except.ok value)
  | Except.error error =>
    (p.emit (Event.consoleError "API call failed:" error.message), Except.error error)

/-- `async function apiCall(endpoint, options = {})`, awaited. -/
def apiCall {β : Type} (endpoint : String) (options : RequestOptions) (r : FetchResult β)
    (p : Page) : Page × Except JSError β :=
  apiCallSettle r (apiCallIssue endpoint options p)

/-! ## Host functions and JavaScript primitives -/

/-- Functions of the host environment that the renderers call and that depend on
locale and Unicode tables: `new Date(s).toLocaleString()` and `s.toUpperCase()`. -/
structure Host where
  toLocaleString : String → String
  toUpperCase : String → String

/-- ECMAScript `WhiteSpace` and `LineTerminator` code points, the characters that
`String.prototype.trim` removes. -/
def isJSWhiteSpace (c : Char) : Bool :=
  let n := c.toNat
  n == 0x9 || n == 0xA || n == 0xB || n == 0xC || n == 0xD || n == 0x20 || n == 0xA0 ||
  n == 0x1680 || (decide (0x2000 ≤ n) && decide (n ≤ 0x200A)) || n == 0x2028 ||
  n == 0x2029 || n == 0x202F || n == 0x205F || n == 0x3000 || n == 0xFEFF

/-- `String.prototype.trim` on the list of characters. -/
def jsTrimChars (cs : List Char) : List Char :=
  ((cs.dropWhile isJSWhiteSpace).reverse.dropWhile isJSWhiteSpace).reverse

/-- `String.prototype.trim`. -/
def jsTrim (s : String) : String :=
  String.mk (jsTrimChars s.data)

/-- `n || 0` for a count that may be missing. -/
def orZero (n : Option Nat) : Nat :=
  match n with
  | some v => if v = 0 then 0 else v
  | none => 0

/-- `Math.round`: the nearest integer, a tie going up. -/
def mathRound (x : ℚ) : ℤ :=
  ⌊x + 1 / 2⌋

/-- `Math.floor`. -/
def mathFloor (x : ℚ) : ℤ :=
  ⌊x⌋

/-- The integer nearest to `x`, the even one on a tie (the rounding of IEEE 754
arithmetic). -/
def roundTiesToEven (x : ℚ) : ℤ :=
  let f := ⌊x⌋
  if x - f < 1 / 2 then f
  else if 1 / 2 < x - f then f + 1
  else if f % 2 = 0 then f
  else f + 1

/-- The double nearest to the rational `x`: a significand of 53 bits at the binary
exponent of `x`, the exponent not below that of the subnormal numbers (`x` below
the overflow threshold `2^1024`). -/
def toDouble (x : ℚ) : ℚ :=
  if x = 0 then 0
  else
    let e := max (Int.log 2 |x| - 52) (-1074)
    (if x < 0 then -1 else 1) * (roundTiesToEven (|x| / (2 : ℚ) ^ e) : ℚ) * (2 : ℚ) ^ e

/-- The Number operator `x / y` on doubles: the exact quotient, rounded. -/
def doubleDiv (x y : ℚ) : ℚ :=
  toDouble (x / y)

/-- The integer `n` that `toFixed(2)` picks for a non-negative `x`: `n / 100` is as
close to `x` as possible, the larger `n` on a tie. -/
def toFixedHundredths (x : ℚ) : Nat :=
  ⌊x * 100 + 1 / 2⌋.toNat

/-- A number of hundredths written with exactly two decimals. -/
def twoDecimals (n : Nat) : String :=
  toString (n / 100) ++ "." ++ toString (n % 100 / 10) ++ toString (n % 10)

/-- `Number.prototype.toFixed(2)` (for magnitudes below 10^21). -/
def toFixed2 (x : ℚ) : String :=
  if x < 0 then "-" ++ twoDecimals (toFixedHundredths (-x))
  else twoDecimals (toFixedHundredths x)

/-- `Number::toString` of the non-negative number `n / 100`: the integer part, then
the fractional digits that are needed. -/
def hundredthsToString (n : Nat) : String :=
  if n % 100 = 0 then toString (n / 100)
  else if n % 10 = 0 then toString (n / 100) ++ "." ++ toString (n % 100 / 10)
  else toString (n / 100) ++ "." ++ toString (n % 100 / 10) ++ toString (n % 10)

/-- `s.charAt(0).toUpperCase() + s.slice(1)`, for a string whose first character is
in the Basic Multilingual Plane (one UTF-16 code unit). -/
def capitalize (h : Host) (s : String) : String :=
  h.toUpperCase (String.mk (s.data.take 1)) ++ String.mk (s.data.drop 1)

/-! ## Utility functions -/

/-- The unit table of `formatFileSize`. -/
def sizes : List String := ["Bytes", "KB", "MB", "GB"]

/-- The index `i = Math.floor(Math.log(bytes) / Math.log(k))` of `formatFileSize`,
with `k = 1024`. -/
def unitIndex (bytes : Nat) : Nat :=
  Nat.log 1024 bytes

/-- `function formatFileSize(bytes)` on a byte count.  `parseFloat(x.toFixed(2))` is
the number `toFixedHundredths x / 100`, and an index outside `sizes` reads
`undefined`. -/
def formatFileSize (bytes : Nat) : String :=
  if bytes = 0 then "0 Bytes"
  else
    let k := 1024
    let i := unitIndex bytes
    hundredthsToString (toFixedHundredths ((bytes : ℚ) / (k : ℚ) ^ i)) ++ " " ++
      sizes.getD i "undefined"

/-- `function showLoading(message)`: sets the text, creates the modal instance and
shows it. -/
def showLoading (message : String) (p : Page) : Page :=
  let p := p.emit (Event.setText "loadingText" message)
  let p := { p with modalInstance := true }
  p.emit (Event.modalShow "loadingModal")

/-- `function hideLoading()`. -/
def hideLoading (p : Page) : Page :=
  if p.modalInstance then p.emit (Event.modalHide "loadingModal") else p

/-- `function showAlert(message, type)`: a banner is inserted at the top of the main
content (its removal five seconds later is not modelled). -/
def showAlert (message : String) (type : String) (p : Page) : Page :=
  p.emit (Event.alert type message)

/-- `function showSuccess(message)`. -/
def showSuccess (message : String) (p : Page) : Page :=
  showAlert message "success" p

/-- `function showError(message)`. -/
def showError (message : String) (p : Page) : Page :=
  showAlert message "danger" p

/-! ## View models -/

/-- One element of `infected_files`. -/
structure InfectedFile where
  file : String
  virus : String

/-- The result of one scan, as sent by the server; an absent field is `none`. -/
structure ScanResult where
  success : Bool
  infected_count : Option Nat
  scan_duration : Option ℚ
  infected_files : Option (List InfectedFile)
  error : Option String

/-- One element of the `results` list of a quick scan. -/
structure PathResult where
  path : String
  result : ScanResult

/-- A scan response: `results` is read when `scan_type` is `quick`, `result`
otherwise. -/
structure ScanResponse where
  scan_type : String
  results : List PathResult
  result : ScanResult

/-- One record of the scan history. -/
structure HistoryRecord where
  scan_type : String
  path : String
  status : String
  infected_count : Option Nat
  scan_duration : Option ℚ
  timestamp : String

/-- The `id` of a quarantine entry, a number or a string. -/
inductive EntryId where
  | num (n : Nat)
  | str (s : String)

/-- Template-literal conversion of an id. -/
def EntryId.render (i : EntryId) : String :=
  match i with
  | EntryId.num n => toString n
  | EntryId.str s => s

/-- One quarantined file. -/
structure QuarantineEntry where
  id : EntryId
  original_path : String
  virus_name : Option String
  file_size : Nat
  timestamp : String

/-- One diagnostic test. -/
structure TestResult where
  status : String
  message : String

/-- The diagnostics report; `tests` in the order of the JSON object. -/
structure DiagnosticsReport where
  timestamp : String
  tests : List (String × TestResult)

/-- A metrics snapshot. -/
structure MetricsSnapshot where
  error : Option String
  cpu_percent : ℚ
  memory_percent : ℚ
  disk_percent : ℚ
  uptime : ℚ

/-- Truthiness of an optional string: present and not empty. -/
def truthyString (s : Option String) : Bool :=
  match s with
  | some v => v != ""
  | none => false

/-- Template-literal conversion of an optional string. -/
def renderString (s : Option String) : String :=
  match s with
  | some v => v
  | none => "undefined"

/-! ## Metrics -/

/-- `function updateStatusIndicator(online)`. -/
def updateStatusIndicator (online : Bool) (p : Page) : Page :=
  if online then
    (p.emit (Event.setClassName "status-indicator" "fas fa-circle text-success me-1")).emit
      (Event.setText "status-text" "Online")
  else
    (p.emit (Event.setClassName "status-indicator" "fas fa-circle text-danger me-1")).emit
      (Event.setText "status-text" "Offline")

/-- `function updateMetricsDisplay(metrics)`. -/
def updateMetricsDisplay (metrics : MetricsSnapshot) (p : Page) : Page :=
  if truthyString metrics.error then
    p.emit (Event.consoleError "Metrics error:" (renderString metrics.error))
  else
    let cpuPercent := mathRound metrics.cpu_percent
    let p := p.emit (Event.setWidth "cpu-bar" (toString cpuPercent ++ "%"))
    let p := p.emit (Event.setText "cpu-text" (toString cpuPercent ++ "%"))
    let memoryPercent := mathRound metrics.memory_percent
    let p := p.emit (Event.setWidth "memory-bar" (toString memoryPercent ++ "%"))
    let p := p.emit (Event.setText "memory-text" (toString memoryPercent ++ "%"))
    let diskPercent := mathRound metrics.disk_percent
    let p := p.emit (Event.setWidth "disk-bar" (toString diskPercent ++ "%"))
    let p := p.emit (Event.setText "disk-text" (toString diskPercent ++ "%"))
    let uptimeDays := mathFloor (doubleDiv metrics.uptime 86400)
    let p := p.emit (Event.setText "uptime-text" (toString uptimeDays ++ " days"))
    updateStatusIndicator true p

/-! ## Result renderer -/

/-- One step of the `forEach` over `result.results`: the state is `(html,
totalInfected)`. -/
def quickScanStep (acc : String × Nat) (pathResult : PathResult) : String × Nat :=
  let infected := orZero pathResult.result.infected_count
  let totalInfected := acc.2 + infected
  let html := acc.1 ++ ("<div class=\"mb-2\">\n                <strong>" ++ pathResult.path ++
    ":</strong> \n                " ++
    (if infected > 0 then "<span class=\"virus-badge\">" ++ toString infected ++ " infected</span>"
     else "<span class=\"safe-badge\">Clean</span>") ++
    "\n            </div>")
  (html, totalInfected)

/-- The markup built by the `quick` branch of `displayScanResults`. -/
def quickScanHtml (result : ScanResponse) : String :=
  let html := "<div class=\"scan-result success fade-in\">"
  let html := html ++ "<h6><i class=\"fas fa-bolt me-2\"></i>Quick Scan Results</h6>"
  let acc := result.results.foldl quickScanStep (html, 0)
  let html := acc.1 ++ ("<div class=\"mt-2\">\n            <strong>Total Infected Files:</strong> " ++
    toString acc.2 ++ "\n        </div>")
  html ++ "</div>"

/-- The markup built by the other branch of `displayScanResults`. -/
def singleScanHtml (h : Host) (result : ScanResponse) : String :=
  let scanResult := result.result
  let isSuccess := scanResult.success
  let infectedCount := orZero scanResult.infected_count
  let html := "<div class=\"scan-result " ++ (if isSuccess then "success" else "error") ++
    " fade-in\">"
  let html := html ++ ("<h6><i class=\"fas fa-search me-2\"></i>" ++ capitalize h result.scan_type ++
    " Scan Results</h6>")
  let html :=
    if isSuccess then
      let html := html ++ ("<div class=\"mb-2\">\n                <strong>Status:</strong> \n                " ++
        (if infectedCount > 0 then
          "<span class=\"virus-badge\">" ++ toString infectedCount ++ " infected files found</span>"
         else "<span class=\"safe-badge\">Clean</span>") ++
        "\n            </div>")
      let html :=
        match scanResult.scan_duration with
        | some d =>
          if d != 0 then
            html ++ ("<div class=\"mb-2\"><strong>Duration:</strong> " ++ toFixed2 d ++
              " seconds</div>")
          else html
        | none => html
      match scanResult.infected_files with
      | some files =>
        if infectedCount > 0 then
          let html := html ++ "<div class=\"mt-3\"><strong>Infected Files:</strong><ul class=\"mt-2\">"
          let html := files.foldl
            (fun html file => html ++ ("<li><code>" ++ file.file ++ "</code> - " ++ file.virus ++ "</li>"))
            html
          html ++ "</ul></div>"
        else html
      | none => html
    else
      html ++ ("<div class=\"text-danger\"><strong>Error:</strong> " ++ renderString scanResult.error ++
        "</div>")
  html ++ "</div>"

/-- `function displayScanResults(result)`. -/
def displayScanResults (h : Host) (result : ScanResponse) (p : Page) : Page :=
  if result.scan_type = "quick" then
    p.emit (Event.setInnerHTML "scanResults" (quickScanHtml result))
  else
    p.emit (Event.setInnerHTML "scanResults" (singleScanHtml h result))

/-! ## History, quarantine and diagnostics renderers -/

/-- The `statusClass` of a history record. -/
def statusClass (status : String) : String :=
  if status = "completed" then "status-completed"
  else if status = "failed" then "status-failed"
  else "status-running"

/-- The table row that `displayHistory` appends for one record. -/
def historyRow (h : Host) (record : HistoryRecord) : String :=
  let timestamp := h.toLocaleString record.timestamp
  let statusClass := statusClass record.status
  "<tr class=\"slide-in\">\n            <td><span class=\"status-badge " ++ statusClass ++ "\">" ++
    record.scan_type ++ "</span></td>\n            <td><code>" ++ record.path ++
    "</code></td>\n            <td><span class=\"status-badge " ++ statusClass ++ "\">" ++
    record.status ++ "</span></td>\n            <td>" ++ toString (orZero record.infected_count) ++
    "</td>\n            <td>" ++
    (match record.scan_duration with
     | some d => if d != 0 then toFixed2 d ++ "s" else "-"
     | none => "-") ++
    "</td>\n            <td>" ++ timestamp ++ "</td>\n        </tr>"

/-- `function displayHistory(history)`. -/
def displayHistory (h : Host) (history : List HistoryRecord) (p : Page) : Page :=
  if history.length = 0 then
    p.emit (Event.setInnerHTML "historyTable"
      "<tr><td colspan=\"6\" class=\"text-center text-muted\">No scan history found</td></tr>")
  else
    let html := history.foldl (fun html record => html ++ historyRow h record) ""
    p.emit (Event.setInnerHTML "historyTable" html)

/-- The table row that `displayQuarantine` appends for one file. -/
def quarantineRow (h : Host) (file : QuarantineEntry) : String :=
  let timestamp := h.toLocaleString file.timestamp
  let fileSize := formatFileSize file.file_size
  "<tr class=\"slide-in\">\n            <td><code>" ++ file.original_path ++
    "</code></td>\n            <td><span class=\"virus-badge\">" ++
    (if truthyString file.virus_name then renderString file.virus_name else "Unknown") ++
    "</span></td>\n            <td>" ++ fileSize ++ "</td>\n            <td>" ++ timestamp ++
    "</td>\n            <td>\n                <button class=\"btn btn-sm btn-danger\" onclick=\"removeFromQuarantine(" ++
    file.id.render ++
    ")\">\n                    <i class=\"fas fa-trash me-1\"></i>Delete\n                </button>\n            </td>\n        </tr>"

/-- `function displayQuarantine(quarantine)`. -/
def displayQuarantine (h : Host) (quarantine : List QuarantineEntry) (p : Page) : Page :=
  if quarantine.length = 0 then
    p.emit (Event.setInnerHTML "quarantineTable"
      "<tr><td colspan=\"5\" class=\"text-center text-muted\">No quarantined files</td></tr>")
  else
    let html := quarantine.foldl (fun html file => html ++ quarantineRow h file) ""
    p.emit (Event.setInnerHTML "quarantineTable" html)

/-- The block that `displayDiagnostics` appends for one test. -/
def diagnosticTest (h : Host) (entry : String × TestResult) : String :=
  let testName := entry.1
  let testResult := entry.2
  let statusClass := if testResult.status = "PASS" then "pass" else "fail"
  let icon := if testResult.status = "PASS" then "fa-check-circle" else "fa-times-circle"
  let iconColor := if testResult.status = "PASS" then "text-success" else "text-danger"
  "<div class=\"diagnostic-test " ++ statusClass ++
    " fade-in\">\n            <div class=\"d-flex align-items-center\">\n                <i class=\"fas " ++
    icon ++ " " ++ iconColor ++ " me-2\"></i>\n                <strong>" ++ capitalize h testName ++
    ":</strong>\n                <span class=\"ms-2\">" ++ testResult.message ++
    "</span>\n            </div>\n        </div>"

/-- `function displayDiagnostics(diagnostics)`. -/
def displayDiagnostics (h : Host) (diagnostics : DiagnosticsReport) (p : Page) : Page :=
  let html := "<div class=\"mb-3\">\n        <strong>Diagnostics run at:</strong> " ++
    h.toLocaleString diagnostics.timestamp ++ "\n    </div>"
  let html := diagnostics.tests.foldl (fun html entry => html ++ diagnosticTest h entry) html
  p.emit (Event.setInnerHTML "diagnosticsResults" html)

/-! ## Loaders -/

/-- `loadHistory()` up to its first `await`. -/
def loadHistoryIssue (p : Page) : Page :=
  apiCallIssue "/api/history?limit=20" {} p

/-- `loadHistory()` once the request has settled. -/
def loadHistorySettle (h : Host) (r : FetchResult (List HistoryRecord)) (p : Page) : Page :=
  match apiCallSettle r p with
  | (p, Except.ok history) => displayHistory h history p
  | (p, Except.error error) =>
    (p.emit (Event.consoleError "Failed to load history:" error.message)).emit
      (Event.setInnerHTML "historyTable"
        "<tr><td colspan=\"6\" class=\"text-center text-danger\">Failed to load history</td></tr>")

/-- `async function loadHistory()`. -/
def loadHistory (h : Host) (r : FetchResult (List HistoryRecord)) (p : Page) : Page :=
  loadHistorySettle h r (loadHistoryIssue p)

/-- `loadQuarantine()` up to its first `await`. -/
def loadQuarantineIssue (p : Page) : Page :=
  apiCallIssue "/api/quarantine" {} p

/-- `loadQuarantine()` once the request has settled. -/
def loadQuarantineSettle (h : Host) (r : FetchResult (List QuarantineEntry)) (p : Page) : Page :=
  match apiCallSettle r p with
  | (p, Except.ok quarantine) => displayQuarantine h quarantine p
  | (p, Except.error error) =>
    (p.emit (Event.consoleError "Failed to load quarantine:" error.message)).emit
      (Event.setInnerHTML "quarantineTable"
        "<tr><td colspan=\"5\" class=\"text-center text-danger\">Failed to load quarantine</td></tr>")

/-- `async function loadQuarantine()`. -/
def loadQuarantine (h : Host) (r : FetchResult (List QuarantineEntry)) (p : Page) : Page :=
  loadQuarantineSettle h r (loadQuarantineIssue p)

/-! ## Action handlers -/

/-- `async function runQuickScan()`.  `scan` answers the scan request, `history` the
history request that the success path issues without awaiting it. -/
def runQuickScan (h : Host) (scan : FetchResult ScanResponse)
    (history : FetchResult (List HistoryRecord)) (p : Page) : Page :=
  let p := showLoading "Running quick scan..." p
  match apiCall "/api/scan/quick" { method := some "POST" } scan p with
  | (p, Except.ok result) =>
    let p := displayScanResults h result p
    let p := loadHistoryIssue p
    let p := hideLoading p
    loadHistorySettle h history p
  | (p, Except.error error) =>
    let p := showError ("Quick scan failed: " ++ error.message) p
    hideLoading p

/-- `async function runCustomScan()`.  `scanPath` and `recursiveScan` are the values
of the two form inputs. -/
def runCustomScan (h : Host) (scanPath : String) (recursiveScan : Bool)
    (scan : FetchResult ScanResponse) (history : FetchResult (List HistoryRecord))
    (p : Page) : Page :=
  let path := jsTrim scanPath
  let recursive := recursiveScan
  if path = "" then
    showError "Please enter a path to scan" p
  else
    let p := showLoading "Running custom scan..." p
    match apiCall "/api/scan/custom"
        { method := some "POST", body := some (RequestBody.json path recursive) } scan p with
    | (p, Except.ok result) =>
      let p := displayScanResults h result p
      let p := loadHistoryIssue p
      let p := hideLoading p
      loadHistorySettle h history p
    | (p, Except.error error) =>
      let p := showError ("Custom scan failed: " ++ error.message) p
      hideLoading p

/-- The `try` block of `uploadAndScan` once its `fetch` has settled. -/
def uploadTry {β : Type} (r : FetchResult β) : Except JSError β :=
  match r with
  | FetchResult.networkError error => Except.error error
  | FetchResult.response status json =>
    if !responseOk status then
      Except.error { message := "HTTP error! status: " ++ toString status }
    else
      json

/-- `async function uploadAndScan()`.  `file` is `fileInput.files[0]`. -/
def uploadAndScan (h : Host) (file : Option File) (scan : FetchResult ScanResponse)
    (history : FetchResult (List HistoryRecord)) (p : Page) : Page :=
  match file with
  | none => showError "Please select a file to upload" p
  | some file =>
    let p := showLoading "Uploading and scanning file..." p
    let p := p.emit (Event.fetch "/api/scan/upload"
      { method := some "POST", body := some (RequestBody.formData file) })
    match uploadTry scan with
    | Except.ok result =>
      let p := displayScanResults h result p
      let p := loadHistoryIssue p
      let p := p.emit (Event.setValue "fileUpload" "")
      let p := hideLoading p
      loadHistorySettle h history p
    | Except.error error =>
      let p := showError ("File upload and scan failed: " ++ error.message) p
      hideLoading p

/-- `async function removeFromQuarantine(fileId)`.  `confirmed` is the answer to the
confirmation dialog, `del` answers the DELETE request and `list` the reload. -/
def removeFromQuarantine {β : Type} (h : Host) (fileId : EntryId) (confirmed : Bool)
    (del : FetchResult β) (list : FetchResult (List QuarantineEntry)) (p : Page) : Page :=
  let p := p.emit (Event.confirm "Are you sure you want to permanently delete this file?")
  if !confirmed then p
  else
    match apiCall ("/api/quarantine/" ++ fileId.render) { method := some "DELETE" } del p with
    | (p, Except.ok _) =>
      let p := showSuccess "File removed from quarantine" p
      loadQuarantine h list p
    | (p, Except.error error) =>
      showError ("Failed to remove file from quarantine: " ++ error.message) p

/-- `async function runDiagnostics()`. -/
def runDiagnostics (h : Host) (r : FetchResult DiagnosticsReport) (p : Page) : Page :=
  let p := showLoading "Running diagnostics..." p
  match apiCall "/api/diagnostics" {} r p with
  | (p, Except.ok diagnostics) =>
    let p := displayDiagnostics h diagnostics p
    hideLoading p
  | (p, Except.error error) =>
    let p := showError ("Diagnostics failed: " ++ error.message) p
    hideLoading p

/-! ## Descriptions used by the specification

The definitions of this section are not taken from the source: they describe the
rendered markup in the words of the specification (one fragment per element, a
sum, a stripped decimal) and are compared with the functions above. -/

/-- A host for concrete evaluations: timestamps are shown as they are and
upper-casing is the ASCII one. -/
def sampleHost : Host :=
  { toLocaleString := fun s => s
    toUpperCase := fun s => String.mk (s.data.map Char.toUpper) }

/-- Remove a decimal point that ends the (reversed) text. -/
def dropTrailingPoint (r : List Char) : List Char :=
  match r with
  | [] => []
  | c :: rest => if c = '.' then rest else c :: rest

/-- Remove the trailing zeros of a decimal, and the decimal point if it becomes the
last character. -/
def stripChars (cs : List Char) : List Char :=
  (dropTrailingPoint (cs.reverse.dropWhile (fun c => c == '0'))).reverse

/-- A decimal with trailing zeros (and a trailing decimal point) removed. -/
def stripTrailingZeros (s : String) : String :=
  String.mk (stripChars s.data)

/-- The badge of one scanned path: `Clean` for a count that is 0 or missing,
`<n> infected` for a count `n > 0`. -/
def quickBadge (infected_count : Option Nat) : String :=
  match infected_count with
  | none => "<span class=\"safe-badge\">Clean</span>"
  | some 0 => "<span class=\"safe-badge\">Clean</span>"
  | some (n + 1) => "<span class=\"virus-badge\">" ++ toString (n + 1) ++ " infected</span>"

/-- The line of one scanned path. -/
def quickLine (pathResult : PathResult) : String :=
  "<div class=\"mb-2\">\n                <strong>" ++ pathResult.path ++
    ":</strong> \n                " ++ quickBadge pathResult.result.infected_count ++
    "\n            </div>"

/-- The sum of the infected counts, a missing count taken as 0. -/
def totalInfected (results : List PathResult) : Nat :=
  (results.map fun pathResult => pathResult.result.infected_count.getD 0).sum

/-- The quick-scan card: the heading, one line per path in list order, the total. -/
def quickCard (results : List PathResult) : String :=
  "<div class=\"scan-result success fade-in\">" ++
    "<h6><i class=\"fas fa-bolt me-2\"></i>Quick Scan Results</h6>" ++
    String.join (results.map quickLine) ++
    ("<div class=\"mt-2\">\n            <strong>Total Infected Files:</strong> " ++
      toString (totalInfected results) ++ "\n        </div>") ++
    "</div>"

/-- A status badge of the history table. -/
def statusBadge (cls text : String) : String :=
  "<span class=\"status-badge " ++ cls ++ "\">" ++ text ++ "</span>"

/-- The heading of the single-result card. -/
def singleTitle (h : Host) (scan_type : String) : String :=
  "<h6><i class=\"fas fa-search me-2\"></i>" ++ capitalize h scan_type ++ " Scan Results</h6>"

/-- The status line of the single-result card: `<n> infected files found` for a
count `n > 0`, `Clean` otherwise. -/
def singleStatus (infected_count : Option Nat) : String :=
  "<div class=\"mb-2\">\n                <strong>Status:</strong> \n                " ++
    (match infected_count with
     | none => "<span class=\"safe-badge\">Clean</span>"
     | some 0 => "<span class=\"safe-badge\">Clean</span>"
     | some (n + 1) =>
       "<span class=\"virus-badge\">" ++ toString (n + 1) ++ " infected files found</span>") ++
    "\n            </div>"

/-- The duration line: present for a duration that is present and not zero. -/
def durationLine (scan_duration : Option ℚ) : String :=
  match scan_duration with
  | none => ""
  | some d =>
    if d = 0 then ""
    else "<div class=\"mb-2\"><strong>Duration:</strong> " ++ toFixed2 d ++ " seconds</div>"

/-- One item of the list of infected files. -/
def infectedItem (file : InfectedFile) : String :=
  "<li><code>" ++ file.file ++ "</code> - " ++ file.virus ++ "</li>"

/-- The list of infected files: present when the count is positive and the list was
sent, one item per element in order. -/
def infectedList (infected_count : Option Nat) (infected_files : Option (List InfectedFile)) :
    String :=
  match infected_files with
  | none => ""
  | some files =>
    if 0 < infected_count.getD 0 then
      "<div class=\"mt-3\"><strong>Infected Files:</strong><ul class=\"mt-2\">" ++
        String.join (files.map infectedItem) ++ "</ul></div>"
    else ""

/-- The single-result card. -/
def singleCard (h : Host) (scan_type : String) (r : ScanResult) : String :=
  if r.success then
    "<div class=\"scan-result success fade-in\">" ++ singleTitle h scan_type ++
      singleStatus r.infected_count ++ durationLine r.scan_duration ++
      infectedList r.infected_count r.infected_files ++ "</div>"
  else
    "<div class=\"scan-result error fade-in\">" ++ singleTitle h scan_type ++
      ("<div class=\"text-danger\"><strong>Error:</strong> " ++ renderString r.error ++ "</div>") ++
      "</div>"

/-- A successful custom scan that reports a duration of zero seconds. -/
def zeroDurationResponse : ScanResponse :=
  { scan_type := "custom", results := []
    result :=
      { success := true, infected_count := none, scan_duration := some 0
        infected_files := none, error := none } }

/-- The page before any handler has run. -/
def freshPage : Page :=
  { modalInstance := false, log := [] }

/-- The `options` that `apiCall` hands to `fetch` for a request with the given
method and no body. -/
def jsonRequest (method : String) : RequestOptions :=
  { method := some method, headers := some [("Content-Type", "application/json")], body := none }

/-- The markup that `displayScanResults` puts into the results container. -/
def scanResultsHtml (h : Host) (result : ScanResponse) : String :=
  if result.scan_type = "quick" then quickScanHtml result else singleScanHtml h result

/-- The effects of `loadHistory` after its request was sent: the table body is
replaced, by the rows or by the failure row (after two console messages). -/
def historySettleEvents (h : Host) (r : FetchResult (List HistoryRecord)) : List Event :=
  match apiCallTry r with
  | Except.ok history =>
    if history.length = 0 then
      [Event.setInnerHTML "historyTable"
        "<tr><td colspan=\"6\" class=\"text-center text-muted\">No scan history found</td></tr>"]
    else
      [Event.setInnerHTML "historyTable"
        (history.foldl (fun html record => html ++ historyRow h record) "")]
  | Except.error error =>
    [Event.consoleError "API call failed:" error.message,
     Event.consoleError "Failed to load history:" error.message,
     Event.setInnerHTML "historyTable"
       "<tr><td colspan=\"6\" class=\"text-center text-danger\">Failed to load history</td></tr>"]

/-- The effects of `loadQuarantine` after its request was sent. -/
def quarantineSettleEvents (h : Host) (r : FetchResult (List QuarantineEntry)) : List Event :=
  match apiCallTry r with
  | Except.ok quarantine =>
    if quarantine.length = 0 then
      [Event.setInnerHTML "quarantineTable"
        "<tr><td colspan=\"5\" class=\"text-center text-muted\">No quarantined files</td></tr>"]
    else
      [Event.setInnerHTML "quarantineTable"
        (quarantine.foldl (fun html file => html ++ quarantineRow h file) "")]
  | Except.error error =>
    [Event.consoleError "API call failed:" error.message,
     Event.consoleError "Failed to load quarantine:" error.message,
     Event.setInnerHTML "quarantineTable"
       "<tr><td colspan=\"5\" class=\"text-center text-danger\">Failed to load quarantine</td></tr>"]

/-- An effect that sends a request. -/
def Event.isFetch (e : Event) : Bool :=
  match e with
  | Event.fetch _ _ => true
  | _ => false

/-- An effect that shows a notification. -/
def Event.isAlert (e : Event) : Bool :=
  match e with
  | Event.alert _ _ => true
  | _ => false

/-- The number of times the loading modal was hidden. -/
def hideCount (log : List Event) : Nat :=
  log.count (Event.modalHide "loadingModal")

/-- A snapshot whose uptime is the double 1519964874237801472 (about 1.5e18
seconds). -/
def largeUptimeSnapshot : MetricsSnapshot :=
  { error := none, cpu_percent := 50, memory_percent := 50, disk_percent := 50
    uptime := 1519964874237801472 }

/-! ## Lemmas -/

theorem foldl_append_eq (l : List String) (a : String) :
    l.foldl (fun r s => r ++ s) a = a ++ String.join l := by
  induction l generalizing a with
  | nil => simp [String.join]
  | cons x xs ih =>
    simp only [List.foldl_cons, String.join]
    rw [ih, ih ("" ++ x)]
    simp [String.append_assoc]

theorem foldl_render_eq {α : Type} (f : α → String) (l : List α) (a : String) :
    l.foldl (fun html x => html ++ f x) a = a ++ String.join (l.map f) := by
  induction l generalizing a with
  | nil => simp [String.join]
  | cons x xs ih =>
    simp only [List.foldl_cons, List.map_cons]
    rw [ih]
    have h := foldl_append_eq (f x :: xs.map f) ""
    have h2 := foldl_append_eq (xs.map f) ("" ++ f x)
    simp only [List.foldl_cons] at h
    rw [h2] at h
    simp at h
    rw [← h, String.append_assoc]

theorem toString_digit (d : Nat) (hd : d < 10) :
    toString d = String.singleton (Nat.digitChar d) := by
  interval_cases d <;> rfl

theorem digitChar_ne (d : Nat) (hd : d < 10) (h0 : d ≠ 0) :
    Nat.digitChar d ≠ '0' ∧ Nat.digitChar d ≠ '.' := by
  interval_cases d <;> first | (exact absurd rfl h0) | decide

theorem stripChars_fraction (A : List Char) (c1 c2 : Char) (h1 : c1 ≠ '.') (h2 : c2 ≠ '.') :
    stripChars (A ++ ['.', c1, c2]) =
      if c2 = '0' then (if c1 = '0' then A else A ++ ['.', c1]) else A ++ ['.', c1, c2] := by
  unfold stripChars
  by_cases e2 : c2 = '0'
  · by_cases e1 : c1 = '0'
    · subst e1 e2
      simp [List.dropWhile_cons, dropTrailingPoint]
    · subst e2
      simp [List.dropWhile_cons, dropTrailingPoint, e1, h1]
  · simp [List.dropWhile_cons, dropTrailingPoint, e2, h2]

theorem strip_twoDecimals (n : Nat) :
    stripTrailingZeros (twoDecimals n) = hundredthsToString n := by
  have h1 : n % 100 / 10 < 10 := by omega
  have h2 : n % 10 < 10 := by omega
  have p1 : Nat.digitChar (n % 100 / 10) ≠ '.' := by
    have := h1
    interval_cases (n % 100 / 10) <;> decide
  have p2 : Nat.digitChar (n % 10) ≠ '.' := by
    have := h2
    interval_cases (n % 10) <;> decide
  have key : (twoDecimals n).data =
      (toString (n / 100)).data ++ ['.', Nat.digitChar (n % 100 / 10), Nat.digitChar (n % 10)] := by
    unfold twoDecimals
    rw [toString_digit _ h1, toString_digit _ h2]
    simp [String.singleton]
  unfold stripTrailingZeros
  rw [key, stripChars_fraction _ _ _ p1 p2]
  unfold hundredthsToString
  rw [toString_digit _ h1, toString_digit _ h2]
  by_cases hb : n % 10 = 0
  · by_cases ha : n % 100 / 10 = 0
    · have hc : n % 100 = 0 := by omega
      have z : Nat.digitChar 0 = '0' := rfl
      simp [hc, hb, ha, z]
    · have hc : n % 100 ≠ 0 := by omega
      obtain ⟨e1, _⟩ := digitChar_ne _ h1 ha
      have z : Nat.digitChar 0 = '0' := rfl
      simp [hc, hb, e1, z, String.ext_iff, String.singleton]
  · have hc : n % 100 ≠ 0 := by omega
    obtain ⟨e1, _⟩ := digitChar_ne _ h2 hb
    simp [hc, hb, e1, String.ext_iff, String.singleton]

theorem toFixedHundredths_div (b d : Nat) (hd : 0 < d) :
    toFixedHundredths ((b : ℚ) / (d : ℚ)) = (200 * b + d) / (2 * d) := by
  unfold toFixedHundredths
  rw [Int.floor_toNat]
  have hd' : (d : ℚ) ≠ 0 := by exact_mod_cast hd.ne'
  have : (b : ℚ) / d * 100 + 1 / 2 = ((200 * b + d : ℕ) : ℚ) / ((2 * d : ℕ) : ℚ) := by
    push_cast
    field_simp
    ring
  rw [this, Nat.floor_div_eq_div]

theorem unitIndex_eq (b i : Nat) (h1 : 1024 ^ i ≤ b) (h2 : b < 1024 ^ (i + 1)) :
    unitIndex b = i :=
  Nat.log_eq_of_pow_le_of_lt_pow h1 h2

theorem formatFileSize_eq (b i : Nat) (h1 : 1024 ^ i ≤ b) (h2 : b < 1024 ^ (i + 1)) :
    formatFileSize b =
      hundredthsToString ((200 * b + 1024 ^ i) / (2 * 1024 ^ i)) ++ " " ++
        sizes.getD i "undefined" := by
  have hpos : 0 < 1024 ^ i := Nat.pow_pos (by norm_num)
  have hb : b ≠ 0 := by omega
  unfold formatFileSize
  rw [if_neg hb]
  simp only [unitIndex_eq b i h1 h2]
  have := toFixedHundredths_div b (1024 ^ i) hpos
  push_cast at this
  rw [this]

theorem round_close (b d : Nat) (hd : 0 < d) :
    |(b : ℚ) / d - (((200 * b + d) / (2 * d) : ℕ) : ℚ) / 100| ≤ 1 / 200 := by
  set n := (200 * b + d) / (2 * d) with hn
  have hn1 : 2 * d * n ≤ 200 * b + d := Nat.mul_div_le _ _
  have hn2 : 200 * b + d < 2 * d * (n + 1) := Nat.lt_mul_div_succ _ (by omega)
  have hdq : (0 : ℚ) < d := by exact_mod_cast hd
  have q1 : (2 : ℚ) * d * n ≤ 200 * b + d := by exact_mod_cast hn1
  have q2 : (200 : ℚ) * b + d < 2 * d * (n + 1) := by exact_mod_cast hn2
  have hx : (b : ℚ) / d * d = b := div_mul_cancel₀ _ hdq.ne'
  set x := (b : ℚ) / d with hxdef
  have a1 : (2 * (n : ℚ)) ≤ 200 * x + 1 := by
    apply le_of_mul_le_mul_right _ hdq
    nlinarith
  have a2 : 200 * x + 1 < 2 * ((n : ℚ) + 1) := by
    apply lt_of_mul_lt_mul_right _ hdq.le
    nlinarith
  rw [abs_le]
  constructor <;> linarith

theorem hundredths_bounds (b i : Nat) (h1 : 1024 ^ i ≤ b) (h2 : b < 1024 ^ (i + 1)) :
    100 ≤ (200 * b + 1024 ^ i) / (2 * 1024 ^ i) ∧
      (200 * b + 1024 ^ i) / (2 * 1024 ^ i) ≤ 102400 := by
  have hpos : 0 < 1024 ^ i := Nat.pow_pos (by norm_num)
  rw [pow_succ] at h2
  constructor
  · rw [Nat.le_div_iff_mul_le (by omega)]
    nlinarith
  · apply Nat.le_of_lt_succ
    rw [Nat.div_lt_iff_lt_mul (by omega)]
    nlinarith

theorem quickBadge_eq (c : Option Nat) :
    (if orZero c > 0 then "<span class=\"virus-badge\">" ++ toString (orZero c) ++ " infected</span>"
     else "<span class=\"safe-badge\">Clean</span>") = quickBadge c := by
  rcases c with _ | _ | n <;> simp [orZero, quickBadge]

theorem orZero_eq (c : Option Nat) : orZero c = c.getD 0 := by
  rcases c with _ | _ | n <;> simp [orZero]

theorem quickScanStep_eq (acc : String × Nat) (pr : PathResult) :
    quickScanStep acc pr = (acc.1 ++ quickLine pr, acc.2 + pr.result.infected_count.getD 0) := by
  unfold quickScanStep quickLine
  simp only [← quickBadge_eq, orZero_eq]

theorem foldl_quickScanStep (l : List PathResult) (html : String) (t : Nat) :
    l.foldl quickScanStep (html, t) =
      (html ++ String.join (l.map quickLine), t + totalInfected l) := by
  induction l generalizing html t with
  | nil => simp [String.join, totalInfected]
  | cons x xs ih =>
    rw [List.foldl_cons, quickScanStep_eq, ih]
    have h := foldl_render_eq quickLine (x :: xs) ""
    have h2 := foldl_render_eq quickLine xs ("" ++ quickLine x)
    simp only [List.foldl_cons] at h
    rw [h2] at h
    simp only [String.empty_append] at h
    simp only [totalInfected, List.map_cons, List.sum_cons] at *
    rw [← h, String.append_assoc, Nat.add_assoc]

theorem quickScanHtml_eq (result : ScanResponse) :
    quickScanHtml result = quickCard result.results := by
  unfold quickScanHtml quickCard
  simp only [foldl_quickScanStep, Nat.zero_add, String.append_assoc]

theorem singleBadge_eq (c : Option Nat) :
    ("<div class=\"mb-2\">\n                <strong>Status:</strong> \n                " ++
      (if orZero c > 0 then
        "<span class=\"virus-badge\">" ++ toString (orZero c) ++ " infected files found</span>"
       else "<span class=\"safe-badge\">Clean</span>") ++
      "\n            </div>") = singleStatus c := by
  rcases c with _ | _ | n <;> simp [orZero, singleStatus]

theorem infectedItem_fun :
    infectedItem =
      fun file => "<li><code>" ++ file.file ++ "</code> - " ++ file.virus ++ "</li>" :=
  rfl

theorem card_open_success (x : String) :
    "<div class=\"scan-result " ++ ("success" ++ (" fade-in\">" ++ x)) =
      "<div class=\"scan-result success fade-in\">" ++ x := by
  rw [← String.append_assoc, ← String.append_assoc]
  rfl

theorem card_open_error (x : String) :
    "<div class=\"scan-result " ++ ("error" ++ (" fade-in\">" ++ x)) =
      "<div class=\"scan-result error fade-in\">" ++ x := by
  rw [← String.append_assoc, ← String.append_assoc]
  rfl

theorem singleScanHtml_eq (h : Host) (result : ScanResponse) :
    singleScanHtml h result = singleCard h result.scan_type result.result := by
  obtain ⟨scan_type, results, ⟨success, ic, sd, files, err⟩⟩ := result
  unfold singleScanHtml singleCard
  cases success
  · simp [-String.reduceAppend, singleTitle, String.append_assoc, card_open_error]
  · simp only [foldl_render_eq]
    rcases sd with _ | d
    · rcases ic with _ | _ | n <;> rcases files with _ | files <;>
        simp [-String.reduceAppend, durationLine, infectedList, singleTitle, singleStatus,
          orZero, infectedItem_fun, String.append_assoc, card_open_success]
    · by_cases hd : d = 0 <;> rcases ic with _ | _ | n <;> rcases files with _ | files <;>
        simp [-String.reduceAppend, durationLine, infectedList, singleTitle, singleStatus,
          orZero, infectedItem_fun, String.append_assoc, card_open_success, hd]

theorem jsTrim_whitespace (s : String) (hs : ∀ c ∈ s.data, isJSWhiteSpace c = true) :
    jsTrim s = "" := by
  unfold jsTrim jsTrimChars
  have : s.data.dropWhile isJSWhiteSpace = [] := by
    rw [List.dropWhile_eq_nil_iff]
    exact hs
  rw [this]
  rfl

theorem toString_ofNat (z : ℤ) (hz : 0 ≤ z) : toString z = toString z.toNat := by
  obtain ⟨n, rfl⟩ := Int.eq_ofNat_of_zero_le hz
  rfl

theorem mathRound_bounds (x : ℚ) (h0 : 0 ≤ x) (h1 : x ≤ 100) :
    0 ≤ mathRound x ∧ mathRound x ≤ 100 ∧ |x - (mathRound x : ℚ)| ≤ 1 / 2 := by
  unfold mathRound
  have f1 : ((⌊x + 1 / 2⌋ : ℤ) : ℚ) ≤ x + 1 / 2 := Int.floor_le _
  have f2 : x + 1 / 2 < (⌊x + 1 / 2⌋ : ℤ) + 1 := Int.lt_floor_add_one _
  refine ⟨?_, ?_, ?_⟩
  · apply Int.floor_nonneg.mpr
    linarith
  · have : (⌊x + 1 / 2⌋ : ℤ) < 101 := by
      rw [Int.floor_lt]
      push_cast
      linarith
    omega
  · rw [abs_le]
    constructor <;> linarith

theorem showLoading_eq (message : String) (p : Page) :
    showLoading message p =
      { modalInstance := true
        log := p.log ++ [Event.setText "loadingText" message, Event.modalShow "loadingModal"] } := by
  simp [showLoading, Page.emit]

theorem displayScanResults_eq (h : Host) (result : ScanResponse) (p : Page) :
    displayScanResults h result p =
      { p with log := p.log ++ [Event.setInnerHTML "scanResults" (scanResultsHtml h result)] } := by
  unfold displayScanResults scanResultsHtml
  split_ifs <;> rfl

theorem loadHistorySettle_eq (h : Host) (r : FetchResult (List HistoryRecord)) (p : Page) :
    loadHistorySettle h r p = { p with log := p.log ++ historySettleEvents h r } := by
  unfold loadHistorySettle apiCallSettle historySettleEvents
  rcases apiCallTry r with e | v
  · simp [Page.emit]
  · simp only [displayHistory]
    split_ifs <;> rfl

theorem loadQuarantineSettle_eq (h : Host) (r : FetchResult (List QuarantineEntry)) (p : Page) :
    loadQuarantineSettle h r p = { p with log := p.log ++ quarantineSettleEvents h r } := by
  unfold loadQuarantineSettle apiCallSettle quarantineSettleEvents
  rcases apiCallTry r with e | v
  · simp [Page.emit]
  · simp only [displayQuarantine]
    split_ifs <;> rfl

theorem hideCount_historySettleEvents (h : Host) (r : FetchResult (List HistoryRecord)) :
    hideCount (historySettleEvents h r) = 0 := by
  unfold historySettleEvents hideCount
  rcases apiCallTry r with e | v
  · simp
  · simp only []
    split_ifs <;> simp

theorem quarantineSettleEvents_quiet (h : Host) (r : FetchResult (List QuarantineEntry)) :
    ∀ e ∈ quarantineSettleEvents h r, e.isFetch = false ∧ e.isAlert = false := by
  unfold quarantineSettleEvents
  rcases apiCallTry r with e | v
  · simp [Event.isFetch, Event.isAlert]
  · simp only []
    split_ifs <;> simp [Event.isFetch, Event.isAlert]

theorem spread_post :
    spread defaultOptions { method := some "POST" } = jsonRequest "POST" := rfl

theorem spread_get : spread defaultOptions {} = jsonRequest "GET" := rfl

theorem spread_delete :
    spread defaultOptions { method := some "DELETE" } = jsonRequest "DELETE" := rfl

theorem runQuickScan_error (h : Host) (scan : FetchResult ScanResponse)
    (history : FetchResult (List HistoryRecord)) (p : Page) (error : JSError)
    (he : apiCallTry scan = Except.error error) :
    runQuickScan h scan history p =
      { modalInstance := true
        log := p.log ++
          [Event.setText "loadingText" "Running quick scan...", Event.modalShow "loadingModal",
           Event.fetch "/api/scan/quick" (jsonRequest "POST"),
           Event.consoleError "API call failed:" error.message,
           Event.alert "danger" ("Quick scan failed: " ++ error.message),
           Event.modalHide "loadingModal"] } := by
  simp [runQuickScan, apiCall, apiCallSettle, he, showLoading_eq, apiCallIssue, spread_post,
    hideLoading, showError, showAlert, Page.emit]

theorem runQuickScan_ok (h : Host) (scan : FetchResult ScanResponse)
    (history : FetchResult (List HistoryRecord)) (p : Page) (result : ScanResponse)
    (he : apiCallTry scan = Except.ok result) :
    runQuickScan h scan history p =
      { modalInstance := true
        log := p.log ++
          [Event.setText "loadingText" "Running quick scan...", Event.modalShow "loadingModal",
           Event.fetch "/api/scan/quick" (jsonRequest "POST"),
           Event.setInnerHTML "scanResults" (scanResultsHtml h result),
           Event.fetch "/api/history?limit=20" (jsonRequest "GET"),
           Event.modalHide "loadingModal"] ++ historySettleEvents h history } := by
  simp [runQuickScan, apiCall, apiCallSettle, he, showLoading_eq, apiCallIssue, spread_post,
    spread_get, hideLoading, loadHistoryIssue, loadHistorySettle_eq, displayScanResults_eq,
    Page.emit]

theorem runCustomScan_error (h : Host) (scanPath : String) (recursiveScan : Bool)
    (scan : FetchResult ScanResponse) (history : FetchResult (List HistoryRecord)) (p : Page)
    (error : JSError) (hp : jsTrim scanPath ≠ "") (he : apiCallTry scan = Except.error error) :
    runCustomScan h scanPath recursiveScan scan history p =
      { modalInstance := true
        log := p.log ++
          [Event.setText "loadingText" "Running custom scan...", Event.modalShow "loadingModal",
           Event.fetch "/api/scan/custom"
             { method := some "POST", headers := some [("Content-Type", "application/json")],
               body := some (RequestBody.json (jsTrim scanPath) recursiveScan) },
           Event.consoleError "API call failed:" error.message,
           Event.alert "danger" ("Custom scan failed: " ++ error.message),
           Event.modalHide "loadingModal"] } := by
  simp [runCustomScan, hp, apiCall, apiCallSettle, he, showLoading_eq, apiCallIssue, spread,
    defaultOptions, hideLoading, showError, showAlert, Page.emit]

theorem runCustomScan_ok (h : Host) (scanPath : String) (recursiveScan : Bool)
    (scan : FetchResult ScanResponse) (history : FetchResult (List HistoryRecord)) (p : Page)
    (result : ScanResponse) (hp : jsTrim scanPath ≠ "") (he : apiCallTry scan = Except.ok result) :
    runCustomScan h scanPath recursiveScan scan history p =
      { modalInstance := true
        log := p.log ++
          [Event.setText "loadingText" "Running custom scan...", Event.modalShow "loadingModal",
           Event.fetch "/api/scan/custom"
             { method := some "POST", headers := some [("Content-Type", "application/json")],
               body := some (RequestBody.json (jsTrim scanPath) recursiveScan) },
           Event.setInnerHTML "scanResults" (scanResultsHtml h result),
           Event.fetch "/api/history?limit=20" (jsonRequest "GET"),
           Event.modalHide "loadingModal"] ++ historySettleEvents h history } := by
  simp [runCustomScan, hp, apiCall, apiCallSettle, he, showLoading_eq, apiCallIssue, spread,
    defaultOptions, jsonRequest, hideLoading, loadHistoryIssue, loadHistorySettle_eq,
    displayScanResults_eq, Page.emit]

theorem uploadAndScan_error (h : Host) (file : File) (scan : FetchResult ScanResponse)
    (history : FetchResult (List HistoryRecord)) (p : Page) (error : JSError)
    (he : uploadTry scan = Except.error error) :
    uploadAndScan h (some file) scan history p =
      { modalInstance := true
        log := p.log ++
          [Event.setText "loadingText" "Uploading and scanning file...",
           Event.modalShow "loadingModal",
           Event.fetch "/api/scan/upload"
             { method := some "POST", headers := none, body := some (RequestBody.formData file) },
           Event.alert "danger" ("File upload and scan failed: " ++ error.message),
           Event.modalHide "loadingModal"] } := by
  simp [uploadAndScan, he, showLoading_eq, hideLoading, showError, showAlert, Page.emit]

theorem uploadAndScan_ok (h : Host) (file : File) (scan : FetchResult ScanResponse)
    (history : FetchResult (List HistoryRecord)) (p : Page) (result : ScanResponse)
    (he : uploadTry scan = Except.ok result) :
    uploadAndScan h (some file) scan history p =
      { modalInstance := true
        log := p.log ++
          [Event.setText "loadingText" "Uploading and scanning file...",
           Event.modalShow "loadingModal",
           Event.fetch "/api/scan/upload"
             { method := some "POST", headers := none, body := some (RequestBody.formData file) },
           Event.setInnerHTML "scanResults" (scanResultsHtml h result),
           Event.fetch "/api/history?limit=20" (jsonRequest "GET"),
           Event.setValue "fileUpload" "",
           Event.modalHide "loadingModal"] ++ historySettleEvents h history } := by
  simp [uploadAndScan, he, showLoading_eq, apiCallIssue, spread_get, hideLoading,
    loadHistoryIssue, loadHistorySettle_eq, displayScanResults_eq, Page.emit]

theorem runDiagnostics_error (h : Host) (r : FetchResult DiagnosticsReport) (p : Page)
    (error : JSError) (he : apiCallTry r = Except.error error) :
    runDiagnostics h r p =
      { modalInstance := true
        log := p.log ++
          [Event.setText "loadingText" "Running diagnostics...", Event.modalShow "loadingModal",
           Event.fetch "/api/diagnostics" (jsonRequest "GET"),
           Event.consoleError "API call failed:" error.message,
           Event.alert "danger" ("Diagnostics failed: " ++ error.message),
           Event.modalHide "loadingModal"] } := by
  simp [runDiagnostics, apiCall, apiCallSettle, he, showLoading_eq, apiCallIssue, spread_get,
    hideLoading, showError, showAlert, Page.emit]

theorem runDiagnostics_ok (h : Host) (r : FetchResult DiagnosticsReport) (p : Page)
    (diagnostics : DiagnosticsReport) (he : apiCallTry r = Except.ok diagnostics) :
    ∃ html, runDiagnostics h r p =
      { modalInstance := true
        log := p.log ++
          [Event.setText "loadingText" "Running diagnostics...", Event.modalShow "loadingModal",
           Event.fetch "/api/diagnostics" (jsonRequest "GET"),
           Event.setInnerHTML "diagnosticsResults" html,
           Event.modalHide "loadingModal"] } := by
  refine ⟨diagnostics.tests.foldl (fun html entry => html ++ diagnosticTest h entry)
    ("<div class=\"mb-3\">\n        <strong>Diagnostics run at:</strong> " ++
      h.toLocaleString diagnostics.timestamp ++ "\n    </div>"), ?_⟩
  simp [runDiagnostics, apiCall, apiCallSettle, he, showLoading_eq, apiCallIssue, spread_get,
    hideLoading, displayDiagnostics, Page.emit]

theorem removeFromQuarantine_error {β : Type} (h : Host) (fileId : EntryId)
    (del : FetchResult β) (list : FetchResult (List QuarantineEntry)) (p : Page)
    (error : JSError) (he : apiCallTry del = Except.error error) :
    removeFromQuarantine h fileId true del list p =
      { p with
        log := p.log ++
          [Event.confirm "Are you sure you want to permanently delete this file?",
           Event.fetch ("/api/quarantine/" ++ fileId.render) (jsonRequest "DELETE"),
           Event.consoleError "API call failed:" error.message,
           Event.alert "danger" ("Failed to remove file from quarantine: " ++ error.message)] } := by
  simp [removeFromQuarantine, apiCall, apiCallSettle, he, apiCallIssue, spread_delete,
    showError, showAlert, Page.emit]

theorem removeFromQuarantine_ok {β : Type} (h : Host) (fileId : EntryId)
    (del : FetchResult β) (list : FetchResult (List QuarantineEntry)) (p : Page)
    (value : β) (he : apiCallTry del = Except.ok value) :
    removeFromQuarantine h fileId true del list p =
      { p with
        log := p.log ++
          [Event.confirm "Are you sure you want to permanently delete this file?",
           Event.fetch ("/api/quarantine/" ++ fileId.render) (jsonRequest "DELETE"),
           Event.alert "success" "File removed from quarantine",
           Event.fetch "/api/quarantine" (jsonRequest "GET")] ++ quarantineSettleEvents h list } := by
  simp [removeFromQuarantine, apiCall, apiCallSettle, he, apiCallIssue, spread_delete,
    spread_get, showSuccess, showAlert, loadQuarantine, loadQuarantineIssue,
    loadQuarantineSettle_eq, Page.emit]

theorem apiCallTry_500 {β : Type} (json : Except JSError β) :
    apiCallTry (FetchResult.response 500 json) =
      Except.error ⟨"HTTP error! status: 500"⟩ := by
  simp [apiCallTry, responseOk]
  rfl

theorem uploadTry_500 {β : Type} (json : Except JSError β) :
    uploadTry (FetchResult.response 500 json) =
      Except.error ⟨"HTTP error! status: 500"⟩ := by
  simp [uploadTry, responseOk]
  rfl

theorem hideCount_append (a b : List Event) : hideCount (a ++ b) = hideCount a + hideCount b := by
  simp [hideCount, List.count_append]

theorem apiCallTry_cases {β : Type} (r : FetchResult β) :
    (∃ error, apiCallTry r = Except.error error) ∨ ∃ value, apiCallTry r = Except.ok value := by
  rcases apiCallTry r with e | v
  · exact Or.inl ⟨e, rfl⟩
  · exact Or.inr ⟨v, rfl⟩

theorem uploadTry_cases {β : Type} (r : FetchResult β) :
    (∃ error, uploadTry r = Except.error error) ∨ ∃ value, uploadTry r = Except.ok value := by
  rcases uploadTry r with e | v
  · exact Or.inl ⟨e, rfl⟩
  · exact Or.inr ⟨v, rfl⟩

/-! ## Lemmas on double rounding -/

theorem roundTiesToEven_ge (y : ℚ) (N : ℤ) (h : (N : ℚ) ≤ y) : N ≤ roundTiesToEven y := by
  have hf : N ≤ ⌊y⌋ := Int.le_floor.mpr h
  unfold roundTiesToEven
  simp only []
  split_ifs <;> omega

theorem roundTiesToEven_lt (y : ℚ) (N : ℤ) (h : y < (N : ℚ) - 1 / 2) :
    roundTiesToEven y < N := by
  have f1 : ((⌊y⌋ : ℤ) : ℚ) ≤ y := Int.floor_le y
  have hf : ⌊y⌋ < N := by
    have : ((⌊y⌋ : ℤ) : ℚ) < (N : ℚ) := by linarith
    exact_mod_cast this
  unfold roundTiesToEven
  simp only []
  split_ifs with h1 h2 h3
  · exact hf
  · have : ((⌊y⌋ : ℤ) : ℚ) + 1 < (N : ℚ) := by linarith
    exact_mod_cast this
  · exact hf
  · have h4 : (1 : ℚ) / 2 ≤ y - ⌊y⌋ := not_lt.mp h1
    have : ((⌊y⌋ : ℤ) : ℚ) + 1 < (N : ℚ) := by linarith
    exact_mod_cast this

theorem roundTiesToEven_eq (y : ℚ) (N : ℤ) (h1 : (N : ℚ) - 1 / 2 < y) (h2 : y < (N : ℚ) + 1 / 2) :
    roundTiesToEven y = N := by
  have a : roundTiesToEven y < N + 1 := by
    apply roundTiesToEven_lt
    push_cast
    linarith
  have b : N - 1 < roundTiesToEven y := by
    by_contra hb
    have hb' : roundTiesToEven y ≤ N - 1 := not_lt.mp hb
    have f2 : y < (⌊y⌋ : ℤ) + 1 := Int.lt_floor_add_one y
    have f1 : ((⌊y⌋ : ℤ) : ℚ) ≤ y := Int.floor_le y
    unfold roundTiesToEven at hb'
    simp only [] at hb'
    split_ifs at hb' with c1 c2 c3
    · have : ((⌊y⌋ : ℤ) : ℚ) ≤ (N : ℚ) - 1 := by exact_mod_cast hb'
      linarith
    · have : ((⌊y⌋ : ℤ) : ℚ) + 1 ≤ (N : ℚ) - 1 := by exact_mod_cast hb'
      linarith
    · have c4 : y - ⌊y⌋ = 1 / 2 := le_antisymm (not_lt.mp c2) (not_lt.mp c1)
      have : ((⌊y⌋ : ℤ) : ℚ) ≤ (N : ℚ) - 1 := by exact_mod_cast hb'
      linarith
    · have : ((⌊y⌋ : ℤ) : ℚ) + 1 ≤ (N : ℚ) - 1 := by exact_mod_cast hb'
      linarith
  omega

theorem toDouble_pos (x : ℚ) (hx : 0 < x) :
    toDouble x =
      (roundTiesToEven (x / (2 : ℚ) ^ max (Int.log 2 x - 52) (-1074)) : ℚ) *
        (2 : ℚ) ^ max (Int.log 2 x - 52) (-1074) := by
  unfold toDouble
  rw [if_neg hx.ne', if_neg (not_lt.mpr hx.le), abs_of_pos hx]
  simp

theorem log_eq_of_bounds (x : ℚ) (E : ℤ) (h1 : (2 : ℚ) ^ E ≤ x) (h2 : x < (2 : ℚ) ^ (E + 1)) :
    Int.log 2 x = E := by
  have hx : 0 < x := lt_of_lt_of_le (by positivity) h1
  have a : E ≤ Int.log 2 x := (Int.zpow_le_iff_le_log (by norm_num) hx).mp (by exact_mod_cast h1)
  have b : Int.log 2 x < E + 1 := (Int.lt_zpow_iff_log_lt (by norm_num) hx).mp (by exact_mod_cast h2)
  omega

theorem zpow_neg_nat (d : ℕ) (e : ℤ) (he : e = -(d : ℤ)) : (2 : ℚ) ^ e = ((2 : ℚ) ^ d)⁻¹ := by
  subst he
  simp [zpow_neg]

theorem zpow_seven_sub (c : ℕ) (e : ℤ) (he : e = 7 - (c : ℤ)) :
    (2 : ℚ) ^ e = 128 / (2 : ℚ) ^ c := by
  subst he
  rw [zpow_sub₀ (by norm_num : (2 : ℚ) ≠ 0)]
  norm_num

theorem floor_doubleDiv_small (q : ℚ) (hq : 0 < q) (hq2 : q < 1 / 2) :
    ⌊toDouble q⌋ = 0 := by
  have hE : Int.log 2 q < -1 := (Int.lt_zpow_iff_log_lt (by norm_num) hq).mp (by
    norm_num
    linarith)
  have he : max (Int.log 2 q - 52) (-1074) ≤ -9 := max_le (by omega) (by norm_num)
  obtain ⟨d, hd⟩ : ∃ d : ℕ, max (Int.log 2 q - 52) (-1074) = -(d : ℤ) :=
    ⟨(-(max (Int.log 2 q - 52) (-1074))).toNat, by omega⟩
  have hd9 : 9 ≤ d := by omega
  rw [toDouble_pos q hq, zpow_neg_nat d _ hd]
  have hp : (0 : ℚ) < (2 : ℚ) ^ d := by positivity
  have hp9 : (2 : ℚ) ^ 9 ≤ (2 : ℚ) ^ d := pow_le_pow_right₀ (by norm_num) hd9
  rw [Int.floor_eq_iff]
  constructor
  · have : (0 : ℤ) ≤ roundTiesToEven (q / ((2 : ℚ) ^ d)⁻¹) := by
      apply roundTiesToEven_ge
      push_cast
      positivity
    have : (0 : ℚ) ≤ (roundTiesToEven (q / ((2 : ℚ) ^ d)⁻¹) : ℚ) := by exact_mod_cast this
    push_cast
    positivity
  · have hn : roundTiesToEven (q / ((2 : ℚ) ^ d)⁻¹) < 2 ^ d := by
      apply roundTiesToEven_lt
      rw [div_inv_eq_mul]
      push_cast
      norm_num at hp9
      nlinarith
    have hn' : (roundTiesToEven (q / ((2 : ℚ) ^ d)⁻¹) : ℚ) < (2 : ℚ) ^ d := by exact_mod_cast hn
    push_cast
    rw [← div_eq_mul_inv, div_lt_iff₀ hp]
    linarith

theorem floor_doubleDiv_large (u : ℚ) (hlt : u < 2 ^ 60) (hd : toDouble u = u)
    (hq2 : 1 / 2 ≤ u / 86400) :
    ⌊toDouble (u / 86400)⌋ = ⌊u / 86400⌋ := by
  have hu : 0 < u := by linarith [show (0 : ℚ) < u / 86400 * 86400 by positivity,
    show u / 86400 * 86400 = u by field_simp]
  set q := u / 86400 with hqdef
  have hqu : u = q * 86400 := by rw [hqdef]; field_simp
  have hq : 0 < q := by linarith
  -- the binary exponent of the quotient
  have hE1 : (2 : ℚ) ^ Int.log 2 q ≤ q := by
    have := Int.zpow_log_le_self (b := 2) (r := q) (by norm_num) hq
    exact_mod_cast this
  have hElo : -1 ≤ Int.log 2 q := (Int.zpow_le_iff_le_log (by norm_num) hq).mp (by
    norm_num
    linarith)
  have hEhi : Int.log 2 q < 44 := (Int.lt_zpow_iff_log_lt (by norm_num) hq).mp (by
    norm_num
    linarith)
  have he : max (Int.log 2 q - 52) (-1074) = Int.log 2 q - 52 := max_eq_left (by omega)
  obtain ⟨d, hdd⟩ : ∃ d : ℕ, Int.log 2 q - 52 = -(d : ℤ) := ⟨(52 - Int.log 2 q).toNat, by omega⟩
  -- the binary exponent of the uptime
  have hEu1 : Int.log 2 q + 16 ≤ Int.log 2 u := (Int.zpow_le_iff_le_log (by norm_num) hu).mp (by
    rw [zpow_add₀ (by norm_num)]
    push_cast
    have h16 : (2 : ℚ) ^ (16 : ℤ) = 65536 := by norm_num
    rw [h16, hqu]
    nlinarith)
  have hEu2 : Int.log 2 u < 60 := (Int.lt_zpow_iff_log_lt (by norm_num) hu).mp (by
    norm_num
    linarith)
  have heu : max (Int.log 2 u - 52) (-1074) = Int.log 2 u - 52 := max_eq_left (by omega)
  obtain ⟨c, hc⟩ : ∃ c : ℕ, Int.log 2 u - 52 = 7 - (c : ℤ) := ⟨(59 - Int.log 2 u).toNat, by omega⟩
  have hcd : c + 10 ≤ d + 1 := by omega
  rw [toDouble_pos u hu, heu, zpow_seven_sub c _ hc] at hd
  set nu := roundTiesToEven (u / (128 / (2 : ℚ) ^ c)) with hnu
  have hpc : (0 : ℚ) < (2 : ℚ) ^ c := by positivity
  have hu128 : u * (2 : ℚ) ^ c = 128 * (nu : ℚ) := by
    have : (nu : ℚ) * (128 / (2 : ℚ) ^ c) * (2 : ℚ) ^ c = 128 * (nu : ℚ) := by
      field_simp
      ring
    rw [hd] at this
    exact this
  rw [toDouble_pos q hq, he, zpow_neg_nat d _ hdd, div_inv_eq_mul]
  have hp : (0 : ℚ) < (2 : ℚ) ^ d := by positivity
  set k := ⌊q⌋ with hk
  have hk1 : (k : ℚ) ≤ q := Int.floor_le q
  have hk2 : q < (k : ℚ) + 1 := Int.lt_floor_add_one q
  rw [Int.floor_eq_iff]
  constructor
  · have : k * 2 ^ d ≤ roundTiesToEven (q * (2 : ℚ) ^ d) := by
      apply roundTiesToEven_ge
      push_cast
      nlinarith
    have : (k : ℚ) * (2 : ℚ) ^ d ≤ (roundTiesToEven (q * (2 : ℚ) ^ d) : ℚ) := by
      exact_mod_cast this
    rw [← div_eq_mul_inv, le_div_iff₀ hp]
    exact this
  · -- the distance from the quotient to the next integer, in units of the uptime
    have hWpos : 0 < 86400 * ((k : ℚ) + 1) - u := by
      rw [hqu]
      linarith
    have hT : (0 : ℤ) < 675 * (k + 1) * 2 ^ c - nu := by
      have : (0 : ℚ) < 128 * ((675 * (k + 1) * 2 ^ c - nu : ℤ) : ℚ) := by
        push_cast
        have e1 : 128 * (675 * ((k : ℚ) + 1) * (2 : ℚ) ^ c - (nu : ℚ)) =
            (86400 * ((k : ℚ) + 1) - u) * (2 : ℚ) ^ c := by
          rw [sub_mul, hu128]
          ring
        rw [e1]
        exact mul_pos hWpos hpc
      have : (0 : ℚ) < ((675 * (k + 1) * 2 ^ c - nu : ℤ) : ℚ) := by linarith
      exact_mod_cast this
    have hT1 : (1 : ℚ) ≤ ((675 * (k + 1) * 2 ^ c - nu : ℤ) : ℚ) := by exact_mod_cast hT
    have hW : (128 : ℚ) ≤ (86400 * ((k : ℚ) + 1) - u) * (2 : ℚ) ^ c := by
      push_cast at hT1
      have : (86400 * ((k : ℚ) + 1) - u) * (2 : ℚ) ^ c =
          128 * (675 * ((k : ℚ) + 1) * (2 : ℚ) ^ c - (nu : ℚ)) := by
        rw [sub_mul, hu128]
        ring
      rw [this]
      linarith
    have hpow : (2 : ℚ) ^ (d + 1) = (2 : ℚ) ^ c * (2 : ℚ) ^ (d + 1 - c) := by
      rw [← pow_add]
      congr 1
      omega
    have h1024 : (1024 : ℚ) ≤ (2 : ℚ) ^ (d + 1 - c) := by
      have : (2 : ℚ) ^ 10 ≤ (2 : ℚ) ^ (d + 1 - c) := pow_le_pow_right₀ (by norm_num) (by omega)
      norm_num at this
      exact this
    have hbig : (86400 : ℚ) < (86400 * ((k : ℚ) + 1) - u) * (2 : ℚ) ^ (d + 1) := by
      rw [hpow, ← mul_assoc]
      nlinarith
    have hn : roundTiesToEven (q * (2 : ℚ) ^ d) < (k + 1) * 2 ^ d := by
      apply roundTiesToEven_lt
      push_cast
      rw [pow_succ, hqu] at hbig
      nlinarith
    have hn' : (roundTiesToEven (q * (2 : ℚ) ^ d) : ℚ) < ((k : ℚ) + 1) * (2 : ℚ) ^ d := by
      exact_mod_cast hn
    rw [← div_eq_mul_inv, div_lt_iff₀ hp]
    exact hn'

theorem floor_doubleDiv (u : ℚ) (h0 : 0 ≤ u) (hlt : u < 2 ^ 60) (hd : toDouble u = u) :
    mathFloor (doubleDiv u 86400) = ⌊u / 86400⌋ := by
  unfold mathFloor doubleDiv
  rcases h0.eq_or_lt with h | hpos
  · subst h
    simp [toDouble]
  · by_cases hq : u / 86400 < 1 / 2
    · have hq0 : 0 < u / 86400 := by positivity
      rw [floor_doubleDiv_small _ hq0 hq, eq_comm, Int.floor_eq_iff]
      constructor
      · push_cast
        exact hq0.le
      · push_cast
        linarith
    · exact floor_doubleDiv_large u hlt hd (not_lt.mp hq)

theorem toDouble_eval (x : ℚ) (E N : ℤ) (h1 : (2 : ℚ) ^ E ≤ x) (h2 : x < (2 : ℚ) ^ (E + 1))
    (hE : -1022 ≤ E) (hN1 : (N : ℚ) - 1 / 2 < x / (2 : ℚ) ^ (E - 52))
    (hN2 : x / (2 : ℚ) ^ (E - 52) < (N : ℚ) + 1 / 2) :
    toDouble x = (N : ℚ) * (2 : ℚ) ^ (E - 52) := by
  have hx : 0 < x := lt_of_lt_of_le (by positivity) h1
  rw [toDouble_pos x hx, log_eq_of_bounds x E h1 h2, max_eq_left (by omega),
    roundTiesToEven_eq _ N hN1 hN2]

theorem toDouble_90000 : toDouble 90000 = 90000 := by
  rw [toDouble_eval 90000 16 (90000 * 2 ^ 36) (by norm_num) (by norm_num) (by norm_num)
    (by norm_num) (by norm_num)]
  norm_num

theorem toDouble_large_uptime : toDouble 1519964874237801472 = 1519964874237801472 := by
  rw [toDouble_eval 1519964874237801472 60 5937362789991412 (by norm_num) (by norm_num)
    (by norm_num) (by norm_num) (by norm_num)]
  norm_num

theorem doubleDiv_large_uptime : doubleDiv 1519964874237801472 86400 = 17592186044419 := by
  unfold doubleDiv
  rw [toDouble_eval (1519964874237801472 / 86400) 44 4503599627371264 (by norm_num)
    (by norm_num) (by norm_num) (by norm_num) (by norm_num)]
  norm_num

theorem largeUptimeSnapshot_uptime : largeUptimeSnapshot.uptime = 1519964874237801472 := rfl

theorem mathFloor_large_uptime :
    mathFloor (doubleDiv 1519964874237801472 86400) = 17592186044419 := by
  rw [doubleDiv_large_uptime]
  unfold mathFloor
  simp

theorem days_large_uptime :
    toString (17592186044419 : ℤ) ++ " days" = "17592186044419 days" := by
  decide

theorem updateMetricsDisplay_log (metrics : MetricsSnapshot) (p : Page)
    (herr : metrics.error = none) :
    updateMetricsDisplay metrics p =
      { p with
        log := p.log ++
          [Event.setWidth "cpu-bar" (toString (mathRound metrics.cpu_percent) ++ "%"),
           Event.setText "cpu-text" (toString (mathRound metrics.cpu_percent) ++ "%"),
           Event.setWidth "memory-bar" (toString (mathRound metrics.memory_percent) ++ "%"),
           Event.setText "memory-text" (toString (mathRound metrics.memory_percent) ++ "%"),
           Event.setWidth "disk-bar" (toString (mathRound metrics.disk_percent) ++ "%"),
           Event.setText "disk-text" (toString (mathRound metrics.disk_percent) ++ "%"),
           Event.setText "uptime-text"
             (toString (mathFloor (doubleDiv metrics.uptime 86400)) ++ " days"),
           Event.setClassName "status-indicator" "fas fa-circle text-success me-1",
           Event.setText "status-text" "Online"] } := by
  unfold updateMetricsDisplay
  simp only [herr, truthyString]
  simp [updateStatusIndicator, Page.emit]

theorem apiCallTry_ok_iff {β : Type} (r : FetchResult β) (v : β) :
    apiCallTry r = Except.ok v ↔
      ∃ status, 200 ≤ status ∧ status ≤ 299 ∧ r = FetchResult.response status (Except.ok v) := by
  rcases r with e | ⟨status, json⟩
  · simp [apiCallTry]
  · by_cases hok : 200 ≤ status ∧ status ≤ 299
    · rcases json with e | w
      · simp [apiCallTry, responseOk, hok]
      · simp only [apiCallTry, responseOk, hok, decide_True, Bool.and_self, Bool.not_true,
          Bool.false_eq_true, if_false, Except.ok.injEq, FetchResult.response.injEq]
        constructor
        · intro hw
          exact ⟨status, hok.1, hok.2, rfl, hw⟩
        · rintro ⟨_, _, _, _, hw⟩
          exact hw
    · have : responseOk status = false := by
        simp only [responseOk, Bool.and_eq_false_iff, decide_eq_false_iff_not]
        tauto
      simp only [apiCallTry, this]
      simp
      intro s h1 h2 h3
      exact fun _ => hok ⟨h3 ▸ h1, h3 ▸ h2⟩

/-! ## Properties of the dashboard -/

/-! ### Local validation -/

/-- C1: a custom-scan submission whose path is empty or consists of white space
only, and an upload submission without a file, show exactly one error notification
and do nothing else: no request, no loading indicator. -/
theorem local_validation_failure (h : Host) (scanPath : String) (recursiveScan : Bool)
    (scan : FetchResult ScanResponse) (history : FetchResult (List HistoryRecord)) (p : Page)
    (hs : ∀ c ∈ scanPath.data, isJSWhiteSpace c = true) :
    runCustomScan h scanPath recursiveScan scan history p =
      { p with log := p.log ++ [Event.alert "danger" "Please enter a path to scan"] } ∧
    uploadAndScan h none scan history p =
      { p with log := p.log ++ [Event.alert "danger" "Please select a file to upload"] } := by
  constructor
  · unfold runCustomScan
    simp only [jsTrim_whitespace scanPath hs, if_true]
    rfl
  · rfl

/-- Witness of C1: a path of three blanks and a tab. -/
theorem local_validation_failure_witness :
    runCustomScan sampleHost "   \t" true (FetchResult.networkError ⟨"offline"⟩)
        (FetchResult.networkError ⟨"offline"⟩) freshPage =
      { modalInstance := false, log := [Event.alert "danger" "Please enter a path to scan"] } ∧
    uploadAndScan sampleHost none (FetchResult.networkError ⟨"offline"⟩)
        (FetchResult.networkError ⟨"offline"⟩) freshPage =
      { modalInstance := false, log := [Event.alert "danger" "Please select a file to upload"] } :=
  local_validation_failure sampleHost "   \t" true _ _ _ (by decide)

/-! ### Remote failure with status 500 -/

/-- C2: when the response status is 500, each of the five actions shows exactly one
danger notification `<prefix>: HTTP error! status: 500` and renders no result; the
four actions that raise the loading indicator hide it after the notification, and
they hide it exactly once whatever the outcome of the request is. -/
theorem http_500_reported (h : Host) (p : Page) :
    (∀ (json : Except JSError ScanResponse) (history : FetchResult (List HistoryRecord)),
      runQuickScan h (FetchResult.response 500 json) history p =
        { modalInstance := true
          log := p.log ++
            [Event.setText "loadingText" "Running quick scan...", Event.modalShow "loadingModal",
             Event.fetch "/api/scan/quick" (jsonRequest "POST"),
             Event.consoleError "API call failed:" "HTTP error! status: 500",
             Event.alert "danger" "Quick scan failed: HTTP error! status: 500",
             Event.modalHide "loadingModal"] }) ∧
    (∀ (scanPath : String) (recursiveScan : Bool) (json : Except JSError ScanResponse)
        (history : FetchResult (List HistoryRecord)), jsTrim scanPath ≠ "" →
      runCustomScan h scanPath recursiveScan (FetchResult.response 500 json) history p =
        { modalInstance := true
          log := p.log ++
            [Event.setText "loadingText" "Running custom scan...", Event.modalShow "loadingModal",
             Event.fetch "/api/scan/custom"
               { method := some "POST", headers := some [("Content-Type", "application/json")],
                 body := some (RequestBody.json (jsTrim scanPath) recursiveScan) },
             Event.consoleError "API call failed:" "HTTP error! status: 500",
             Event.alert "danger" "Custom scan failed: HTTP error! status: 500",
             Event.modalHide "loadingModal"] }) ∧
    (∀ (file : File) (json : Except JSError ScanResponse)
        (history : FetchResult (List HistoryRecord)),
      uploadAndScan h (some file) (FetchResult.response 500 json) history p =
        { modalInstance := true
          log := p.log ++
            [Event.setText "loadingText" "Uploading and scanning file...",
             Event.modalShow "loadingModal",
             Event.fetch "/api/scan/upload"
               { method := some "POST", headers := none,
                 body := some (RequestBody.formData file) },
             Event.alert "danger" "File upload and scan failed: HTTP error! status: 500",
             Event.modalHide "loadingModal"] }) ∧
    (∀ json : Except JSError DiagnosticsReport,
      runDiagnostics h (FetchResult.response 500 json) p =
        { modalInstance := true
          log := p.log ++
            [Event.setText "loadingText" "Running diagnostics...", Event.modalShow "loadingModal",
             Event.fetch "/api/diagnostics" (jsonRequest "GET"),
             Event.consoleError "API call failed:" "HTTP error! status: 500",
             Event.alert "danger" "Diagnostics failed: HTTP error! status: 500",
             Event.modalHide "loadingModal"] }) ∧
    (∀ (fileId : EntryId) (json : Except JSError Unit)
        (list : FetchResult (List QuarantineEntry)),
      removeFromQuarantine h fileId true (FetchResult.response 500 json) list p =
        { p with
          log := p.log ++
            [Event.confirm "Are you sure you want to permanently delete this file?",
             Event.fetch ("/api/quarantine/" ++ fileId.render) (jsonRequest "DELETE"),
             Event.consoleError "API call failed:" "HTTP error! status: 500",
             Event.alert "danger"
               "Failed to remove file from quarantine: HTTP error! status: 500"] }) ∧
    (∀ (scan : FetchResult ScanResponse) (history : FetchResult (List HistoryRecord)),
      hideCount (runQuickScan h scan history p).log = hideCount p.log + 1) ∧
    (∀ (scanPath : String) (recursiveScan : Bool) (scan : FetchResult ScanResponse)
        (history : FetchResult (List HistoryRecord)), jsTrim scanPath ≠ "" →
      hideCount (runCustomScan h scanPath recursiveScan scan history p).log =
        hideCount p.log + 1) ∧
    (∀ (file : File) (scan : FetchResult ScanResponse)
        (history : FetchResult (List HistoryRecord)),
      hideCount (uploadAndScan h (some file) scan history p).log = hideCount p.log + 1) ∧
    (∀ r : FetchResult DiagnosticsReport,
      hideCount (runDiagnostics h r p).log = hideCount p.log + 1) := by
  refine ⟨?_, ?_, ?_, ?_, ?_, ?_, ?_, ?_, ?_⟩
  · intro json history
    exact runQuickScan_error h _ history p _ (apiCallTry_500 json)
  · intro scanPath recursiveScan json history hp
    exact runCustomScan_error h scanPath recursiveScan _ history p _ hp (apiCallTry_500 json)
  · intro file json history
    exact uploadAndScan_error h file _ history p _ (uploadTry_500 json)
  · intro json
    exact runDiagnostics_error h _ p _ (apiCallTry_500 json)
  · intro fileId json list
    exact removeFromQuarantine_error h fileId _ list p _ (apiCallTry_500 json)
  · intro scan history
    rcases apiCallTry_cases scan with ⟨e, he⟩ | ⟨v, hv⟩
    · rw [runQuickScan_error h scan history p e he, hideCount_append]
      simp [hideCount]
    · rw [runQuickScan_ok h scan history p v hv, hideCount_append, hideCount_append,
        hideCount_historySettleEvents]
      simp [hideCount]
  · intro scanPath recursiveScan scan history hp
    rcases apiCallTry_cases scan with ⟨e, he⟩ | ⟨v, hv⟩
    · rw [runCustomScan_error h scanPath recursiveScan scan history p e hp he, hideCount_append]
      simp [hideCount]
    · rw [runCustomScan_ok h scanPath recursiveScan scan history p v hp hv, hideCount_append,
        hideCount_append, hideCount_historySettleEvents]
      simp [hideCount]
  · intro file scan history
    rcases uploadTry_cases scan with ⟨e, he⟩ | ⟨v, hv⟩
    · rw [uploadAndScan_error h file scan history p e he, hideCount_append]
      simp [hideCount]
    · rw [uploadAndScan_ok h file scan history p v hv, hideCount_append, hideCount_append,
        hideCount_historySettleEvents]
      simp [hideCount]
  · intro r
    rcases apiCallTry_cases r with ⟨e, he⟩ | ⟨v, hv⟩
    · rw [runDiagnostics_error h r p e he, hideCount_append]
      simp [hideCount]
    · obtain ⟨html, hh⟩ := runDiagnostics_ok h r p v hv
      rw [hh, hideCount_append]
      simp [hideCount]

/-- Witness of C2: a custom scan of `/srv/data` answered with status 500. -/
theorem http_500_reported_witness :
    runCustomScan sampleHost " /srv/data " true
        (FetchResult.response 500 (Except.error ⟨"Unexpected token"⟩))
        (FetchResult.networkError ⟨"offline"⟩) freshPage =
      { modalInstance := true
        log := freshPage.log ++
          [Event.setText "loadingText" "Running custom scan...", Event.modalShow "loadingModal",
           Event.fetch "/api/scan/custom"
             { method := some "POST", headers := some [("Content-Type", "application/json")],
               body := some (RequestBody.json (jsTrim " /srv/data ") true) },
           Event.consoleError "API call failed:" "HTTP error! status: 500",
           Event.alert "danger" "Custom scan failed: HTTP error! status: 500",
           Event.modalHide "loadingModal"] } ∧
    jsTrim " /srv/data " = "/srv/data" :=
  ⟨(http_500_reported sampleHost freshPage).2.1 " /srv/data " true _ _ (by decide), by decide⟩

/-! ### Quarantine deletion -/

/-- C3 as stated fails: the DELETE of entry 7 is answered with status 204 and an
empty body, so the request succeeded; the handler nevertheless shows the error
notification and does not reload the list. -/
theorem removeFromQuarantine_empty_body :
    responseOk 204 = true ∧
    removeFromQuarantine sampleHost (EntryId.num 7) true
        (FetchResult.response 204 (Except.error ⟨"Unexpected end of JSON input"⟩) :
          FetchResult Unit)
        (FetchResult.response 200 (Except.ok [])) freshPage =
      { modalInstance := false
        log :=
          [Event.confirm "Are you sure you want to permanently delete this file?",
           Event.fetch "/api/quarantine/7" (jsonRequest "DELETE"),
           Event.consoleError "API call failed:" "Unexpected end of JSON input",
           Event.alert "danger"
             "Failed to remove file from quarantine: Unexpected end of JSON input"] } :=
  ⟨rfl, rfl⟩

/-- C3, amended: a declined confirmation sends nothing and shows nothing; an accepted
one sends exactly one DELETE request to `/api/quarantine/<id>`; if the awaited call
resolves, which it does exactly when the status is in 200-299 and the body parsed,
the success notification is shown and the list is reloaded by a GET sent after the
DELETE; if it rejects, an error notification is shown and no reload is sent. -/
theorem removeFromQuarantine_spec {β : Type} (h : Host) (fileId : EntryId)
    (del : FetchResult β) (list : FetchResult (List QuarantineEntry)) (p : Page) :
    removeFromQuarantine h fileId false del list p =
      { p with
        log := p.log ++ [Event.confirm "Are you sure you want to permanently delete this file?"] } ∧
    (∀ value : β, apiCallTry del = Except.ok value ↔
      ∃ status, 200 ≤ status ∧ status ≤ 299 ∧
        del = FetchResult.response status (Except.ok value)) ∧
    (∀ value : β, apiCallTry del = Except.ok value →
      removeFromQuarantine h fileId true del list p =
        { p with
          log := p.log ++
            [Event.confirm "Are you sure you want to permanently delete this file?",
             Event.fetch ("/api/quarantine/" ++ fileId.render) (jsonRequest "DELETE"),
             Event.alert "success" "File removed from quarantine",
             Event.fetch "/api/quarantine" (jsonRequest "GET")] ++
            quarantineSettleEvents h list }) ∧
    (∀ e ∈ quarantineSettleEvents h list, e.isFetch = false ∧ e.isAlert = false) ∧
    (∀ error : JSError, apiCallTry del = Except.error error →
      removeFromQuarantine h fileId true del list p =
        { p with
          log := p.log ++
            [Event.confirm "Are you sure you want to permanently delete this file?",
             Event.fetch ("/api/quarantine/" ++ fileId.render) (jsonRequest "DELETE"),
             Event.consoleError "API call failed:" error.message,
             Event.alert "danger"
               ("Failed to remove file from quarantine: " ++ error.message)] }) := by
  refine ⟨?_, apiCallTry_ok_iff del, ?_, quarantineSettleEvents_quiet h list, ?_⟩
  · simp [removeFromQuarantine, Page.emit]
  · intro value he
    exact removeFromQuarantine_ok h fileId del list p value he
  · intro error he
    exact removeFromQuarantine_error h fileId del list p error he

/-- Witness of C3: entry 7 is deleted and the reloaded list is empty. -/
theorem removeFromQuarantine_spec_witness :
    removeFromQuarantine sampleHost (EntryId.num 7) true
        (FetchResult.response 200 (Except.ok ()) : FetchResult Unit)
        (FetchResult.response 200 (Except.ok [])) freshPage =
      { modalInstance := false
        log :=
          [Event.confirm "Are you sure you want to permanently delete this file?",
           Event.fetch "/api/quarantine/7" (jsonRequest "DELETE"),
           Event.alert "success" "File removed from quarantine",
           Event.fetch "/api/quarantine" (jsonRequest "GET"),
           Event.setInnerHTML "quarantineTable"
             "<tr><td colspan=\"5\" class=\"text-center text-muted\">No quarantined files</td></tr>"] } :=
  ((removeFromQuarantine_spec sampleHost (EntryId.num 7)
      (FetchResult.response 200 (Except.ok ()) : FetchResult Unit)
      (FetchResult.response 200 (Except.ok [])) freshPage).2.2.1 () rfl).trans rfl

/-! ### Quick-scan rendering -/

/-- C4: for a quick-scan response, `displayScanResults` replaces the results
container with the heading, one line per element of `results` in list order (with
the `Clean` badge for a count that is 0 or missing and the `<n> infected` badge for
a count `n > 0`), and a total that is the sum of the counts. -/
theorem displayScanResults_quick (h : Host) (result : ScanResponse) (p : Page)
    (hq : result.scan_type = "quick") :
    displayScanResults h result p =
      p.emit (Event.setInnerHTML "scanResults" (quickCard result.results)) := by
  unfold displayScanResults
  rw [if_pos hq, quickScanHtml_eq]

/-- Witness of C4: the results `/a` with 2 infected files and `/b` with none render a
`2 infected` badge, a `Clean` badge and the total 2. -/
theorem displayScanResults_quick_witness :
    displayScanResults sampleHost
        { scan_type := "quick"
          results :=
            [{ path := "/a", result := ⟨true, some 2, none, none, none⟩ },
             { path := "/b", result := ⟨true, some 0, none, none, none⟩ }]
          result := ⟨true, none, none, none, none⟩ }
        freshPage =
      { modalInstance := false
        log := [Event.setInnerHTML "scanResults"
          ("<div class=\"scan-result success fade-in\">" ++
            "<h6><i class=\"fas fa-bolt me-2\"></i>Quick Scan Results</h6>" ++
            "<div class=\"mb-2\">\n                <strong>/a:</strong> \n                <span class=\"virus-badge\">2 infected</span>\n            </div>" ++
            "<div class=\"mb-2\">\n                <strong>/b:</strong> \n                <span class=\"safe-badge\">Clean</span>\n            </div>" ++
            "<div class=\"mt-2\">\n            <strong>Total Infected Files:</strong> 2\n        </div>" ++
            "</div>")] } :=
  (displayScanResults_quick sampleHost _ _ rfl).trans rfl

/-! ### File sizes -/

/-- C5: `formatFileSize` on 0, 1536 and 1048576, and in general: for a byte count
`b` with `1024^i ≤ b < 1024^(i+1)` and `i < 4` the result is the two-decimal
rendering of `b / 1024^i` rounded to hundredths, with trailing zeros and a trailing
decimal point removed, then a space and the `i`-th unit. -/
theorem formatFileSize_spec :
    formatFileSize 0 = "0 Bytes" ∧ formatFileSize 1536 = "1.5 KB" ∧
    formatFileSize 1048576 = "1 MB" ∧
    ∀ b i : Nat, i < 4 → 1024 ^ i ≤ b → b < 1024 ^ (i + 1) →
      ∃ (n : Nat) (unit : String), sizes[i]? = some unit ∧
        |(b : ℚ) / (1024 : ℚ) ^ i - (n : ℚ) / 100| ≤ 1 / 200 ∧
        formatFileSize b = stripTrailingZeros (twoDecimals n) ++ " " ++ unit := by
  refine ⟨by decide, ?_, ?_, ?_⟩
  · rw [formatFileSize_eq 1536 1 (by norm_num) (by norm_num)]
    decide
  · rw [formatFileSize_eq 1048576 2 (by norm_num) (by norm_num)]
    decide
  · intro b i hi h1 h2
    have hpos : 0 < 1024 ^ i := Nat.pow_pos (by norm_num)
    obtain ⟨unit, hu⟩ : ∃ unit, sizes[i]? = some unit := by
      interval_cases i <;> simp [sizes]
    refine ⟨(200 * b + 1024 ^ i) / (2 * 1024 ^ i), unit, hu, ?_, ?_⟩
    · have := round_close b (1024 ^ i) hpos
      push_cast at this
      exact this
    · rw [formatFileSize_eq b i h1 h2, strip_twoDecimals, List.getD_eq_getElem?_getD, hu]
      rfl

/-- Witness of C5: 1536 bytes lie between `1024^1` and `1024^2`. -/
theorem formatFileSize_spec_witness :
    ∃ (n : Nat) (unit : String), sizes[1]? = some unit ∧
      |((1536 : ℕ) : ℚ) / (1024 : ℚ) ^ 1 - (n : ℚ) / 100| ≤ 1 / 200 ∧
      formatFileSize 1536 = stripTrailingZeros (twoDecimals n) ++ " " ++ unit :=
  formatFileSize_spec.2.2.2 1536 1 (by decide) (by decide) (by decide)

/-! ### History table -/

/-- C6: an empty history renders the single row `No scan history found`; a non-empty
one renders one row per record in response order, and in every row the scan-type
badge and the status badge carry the class derived from the record's status. -/
theorem displayHistory_spec (h : Host) (p : Page) :
    displayHistory h [] p =
      p.emit (Event.setInnerHTML "historyTable"
        "<tr><td colspan=\"6\" class=\"text-center text-muted\">No scan history found</td></tr>") ∧
    (∀ history : List HistoryRecord, history ≠ [] →
      displayHistory h history p =
        p.emit (Event.setInnerHTML "historyTable" (String.join (history.map (historyRow h))))) ∧
    (∀ record : HistoryRecord, ∃ (cls rest : String),
      (record.status = "completed" → cls = "status-completed") ∧
      (record.status = "failed" → cls = "status-failed") ∧
      (record.status ≠ "completed" → record.status ≠ "failed" → cls = "status-running") ∧
      historyRow h record =
        "<tr class=\"slide-in\">\n            <td>" ++ statusBadge cls record.scan_type ++
          "</td>\n            <td><code>" ++ record.path ++ "</code></td>\n            <td>" ++
          statusBadge cls record.status ++ "</td>" ++ rest) := by
  refine ⟨rfl, ?_, ?_⟩
  · intro history hne
    unfold displayHistory
    have hl : history.length ≠ 0 := by
      cases history with
      | nil => exact absurd rfl hne
      | cons a l => simp
    rw [if_neg hl, foldl_render_eq, String.empty_append]
  · intro record
    refine ⟨statusClass record.status,
      "\n            <td>" ++ toString (orZero record.infected_count) ++
        "</td>\n            <td>" ++
        (match record.scan_duration with
         | some d => if d != 0 then toFixed2 d ++ "s" else "-"
         | none => "-") ++
        "</td>\n            <td>" ++ h.toLocaleString record.timestamp ++ "</td>\n        </tr>",
      ?_, ?_, ?_, ?_⟩
    · intro hs
      simp [statusClass, hs]
    · intro hs
      simp [statusClass, hs]
    · intro h1 h2
      simp [statusClass, h1, h2]
    · have e1 : "<tr class=\"slide-in\">\n            <td><span class=\"status-badge " =
          "<tr class=\"slide-in\">\n            <td>" ++ "<span class=\"status-badge " := by
        decide
      have e2 : "</span></td>\n            <td><code>" =
          "</span>" ++ "</td>\n            <td><code>" := by decide
      have e3 : "</code></td>\n            <td><span class=\"status-badge " =
          "</code></td>\n            <td>" ++ "<span class=\"status-badge " := by decide
      have e4 : "</span></td>\n            <td>" =
          "</span>" ++ ("</td>" ++ "\n            <td>") := by decide
      unfold historyRow statusBadge
      rw [e1, e2, e3, e4]
      simp only [String.append_assoc]

set_option maxRecDepth 100000 in
/-- Witness of C6: a history of one completed scan. -/
theorem displayHistory_spec_witness :
    displayHistory sampleHost
        [{ scan_type := "custom", path := "/srv", status := "completed",
           infected_count := some 0, scan_duration := none,
           timestamp := "2024-01-01T00:00:00" }]
        freshPage =
      { modalInstance := false
        log := [Event.setInnerHTML "historyTable"
          ("<tr class=\"slide-in\">\n            <td><span class=\"status-badge status-completed\">custom</span></td>" ++
            "\n            <td><code>/srv</code></td>" ++
            "\n            <td><span class=\"status-badge status-completed\">completed</span></td>" ++
            "\n            <td>0</td>\n            <td>-</td>" ++
            "\n            <td>2024-01-01T00:00:00</td>\n        </tr>")] } :=
  ((displayHistory_spec sampleHost freshPage).2.1 _ (by simp)).trans rfl

/-! ### Metrics gauges -/

/-- C7 as stated fails: the uptime 1519964874237801472 is a double and not
negative; its quotient by 86400 rounds up to the next integer before `Math.floor`,
and the label shows 17592186044419 days, one more than `floor(uptime / 86400)`. -/
theorem updateMetricsDisplay_large_uptime :
    largeUptimeSnapshot.error = none ∧ 0 ≤ largeUptimeSnapshot.uptime ∧
    toDouble largeUptimeSnapshot.uptime = largeUptimeSnapshot.uptime ∧
    Event.setText "uptime-text" "17592186044419 days" ∈
      (updateMetricsDisplay largeUptimeSnapshot freshPage).log ∧
    ⌊largeUptimeSnapshot.uptime / 86400⌋ = 17592186044418 := by
  refine ⟨rfl, ?_, ?_, ?_, ?_⟩
  · rw [largeUptimeSnapshot_uptime]
    norm_num
  · rw [largeUptimeSnapshot_uptime]
    exact toDouble_large_uptime
  · rw [updateMetricsDisplay_log _ _ rfl, largeUptimeSnapshot_uptime, mathFloor_large_uptime,
      days_large_uptime]
    exact List.mem_append_right _ (List.Mem.tail _ (List.Mem.tail _ (List.Mem.tail _
      (List.Mem.tail _ (List.Mem.tail _ (List.Mem.tail _ (List.Mem.head _)))))))
  · rw [largeUptimeSnapshot_uptime, Int.floor_eq_iff]
    norm_num

/-- C7, amended: for a snapshot without an error field whose three percentages lie in
[0,100] and whose uptime is a double that is not negative and below 2^60 seconds,
every gauge gets the same text `r%` for its bar width and its label, `r` being the
percentage rounded to the nearest integer (an integer from 0 to 100), and the uptime
label is `d days` with `d = floor(uptime / 86400)`; an uptime of 90000 seconds gives
`1 days`. -/
theorem updateMetricsDisplay_spec (metrics : MetricsSnapshot) (p : Page)
    (herr : metrics.error = none)
    (hcpu : 0 ≤ metrics.cpu_percent ∧ metrics.cpu_percent ≤ 100)
    (hmem : 0 ≤ metrics.memory_percent ∧ metrics.memory_percent ≤ 100)
    (hdisk : 0 ≤ metrics.disk_percent ∧ metrics.disk_percent ≤ 100)
    (hup : 0 ≤ metrics.uptime) (hdbl : toDouble metrics.uptime = metrics.uptime)
    (hlt : metrics.uptime < 2 ^ 60) :
    ∃ c m d u : Nat,
      (c ≤ 100 ∧ |metrics.cpu_percent - (c : ℚ)| ≤ 1 / 2) ∧
      (m ≤ 100 ∧ |metrics.memory_percent - (m : ℚ)| ≤ 1 / 2) ∧
      (d ≤ 100 ∧ |metrics.disk_percent - (d : ℚ)| ≤ 1 / 2) ∧
      ((u : ℚ) ≤ metrics.uptime / 86400 ∧ metrics.uptime / 86400 < (u : ℚ) + 1) ∧
      (metrics.uptime = 90000 → u = 1) ∧
      updateMetricsDisplay metrics p =
        { p with
          log := p.log ++
            [Event.setWidth "cpu-bar" (toString c ++ "%"),
             Event.setText "cpu-text" (toString c ++ "%"),
             Event.setWidth "memory-bar" (toString m ++ "%"),
             Event.setText "memory-text" (toString m ++ "%"),
             Event.setWidth "disk-bar" (toString d ++ "%"),
             Event.setText "disk-text" (toString d ++ "%"),
             Event.setText "uptime-text" (toString u ++ " days"),
             Event.setClassName "status-indicator" "fas fa-circle text-success me-1",
             Event.setText "status-text" "Online"] } := by
  obtain ⟨c0, c1, c2⟩ := mathRound_bounds _ hcpu.1 hcpu.2
  obtain ⟨m0, m1, m2⟩ := mathRound_bounds _ hmem.1 hmem.2
  obtain ⟨d0, d1, d2⟩ := mathRound_bounds _ hdisk.1 hdisk.2
  have hfl : mathFloor (doubleDiv metrics.uptime 86400) = ⌊metrics.uptime / 86400⌋ :=
    floor_doubleDiv metrics.uptime hup hlt hdbl
  have u0 : 0 ≤ ⌊metrics.uptime / 86400⌋ := by
    apply Int.floor_nonneg.mpr
    positivity
  have cast : ∀ z : ℤ, 0 ≤ z → ((z.toNat : ℕ) : ℚ) = (z : ℚ) := by
    intro z hz
    have := Int.toNat_of_nonneg hz
    exact_mod_cast congrArg (fun t : ℤ => (t : ℚ)) this
  refine ⟨(mathRound metrics.cpu_percent).toNat, (mathRound metrics.memory_percent).toNat,
    (mathRound metrics.disk_percent).toNat, ⌊metrics.uptime / 86400⌋.toNat,
    ⟨by omega, by rw [cast _ c0]; exact c2⟩, ⟨by omega, by rw [cast _ m0]; exact m2⟩,
    ⟨by omega, by rw [cast _ d0]; exact d2⟩, ?_, ?_, ?_⟩
  · rw [cast _ u0]
    exact ⟨Int.floor_le _, Int.lt_floor_add_one _⟩
  · intro h9
    have : ⌊metrics.uptime / 86400⌋ = 1 := by
      rw [h9, Int.floor_eq_iff]
      norm_num
    rw [this]
    rfl
  · unfold updateMetricsDisplay
    simp only [herr, truthyString, hfl, ← toString_ofNat _ c0, ← toString_ofNat _ m0,
      ← toString_ofNat _ d0, ← toString_ofNat _ u0]
    simp [updateStatusIndicator, Page.emit]

/-- A snapshot with 12.5 % CPU, 49.4 % memory, a full disk and 90000 seconds of
uptime. -/
theorem updateMetricsDisplay_spec_witness :
    ∃ c m d u : Nat,
      (c ≤ 100 ∧ |(25 / 2 : ℚ) - (c : ℚ)| ≤ 1 / 2) ∧
      (m ≤ 100 ∧ |(247 / 5 : ℚ) - (m : ℚ)| ≤ 1 / 2) ∧
      (d ≤ 100 ∧ |(100 : ℚ) - (d : ℚ)| ≤ 1 / 2) ∧
      ((u : ℚ) ≤ (90000 : ℚ) / 86400 ∧ (90000 : ℚ) / 86400 < (u : ℚ) + 1) ∧
      ((90000 : ℚ) = 90000 → u = 1) ∧
      updateMetricsDisplay ⟨none, 25 / 2, 247 / 5, 100, 90000⟩ freshPage =
        { freshPage with
          log := freshPage.log ++
            [Event.setWidth "cpu-bar" (toString c ++ "%"),
             Event.setText "cpu-text" (toString c ++ "%"),
             Event.setWidth "memory-bar" (toString m ++ "%"),
             Event.setText "memory-text" (toString m ++ "%"),
             Event.setWidth "disk-bar" (toString d ++ "%"),
             Event.setText "disk-text" (toString d ++ "%"),
             Event.setText "uptime-text" (toString u ++ " days"),
             Event.setClassName "status-indicator" "fas fa-circle text-success me-1",
             Event.setText "status-text" "Online"] } :=
  updateMetricsDisplay_spec ⟨none, 25 / 2, 247 / 5, 100, 90000⟩ freshPage rfl
    (by norm_num) (by norm_num) (by norm_num) (by norm_num) toDouble_90000 (by norm_num)

/-! ### API client -/

/-- C8 as stated fails: the DELETE request is answered with status 204 and an empty
body; the network request succeeded and the status is in the range 200-299, but
`apiCall` does not return a body, it fails with the error of `response.json()`. -/
theorem apiCall_empty_body :
    responseOk 204 = true ∧
    apiCall "/api/quarantine/7" { method := some "DELETE" }
        (FetchResult.response 204 (Except.error ⟨"Unexpected end of JSON input"⟩) :
          FetchResult Unit) freshPage =
      ({ modalInstance := false
         log := [Event.fetch "/api/quarantine/7" (jsonRequest "DELETE"),
           Event.consoleError "API call failed:" "Unexpected end of JSON input"] },
       Except.error ⟨"Unexpected end of JSON input"⟩) :=
  ⟨rfl, rfl⟩

/-- C8, amended: `apiCall` sends one request with the merged options; it returns
the JSON body exactly when the request succeeded, the status is in 200-299 and the
body parsed; a status outside the range fails with `HTTP error! status: <status>`,
a failed request fails with its own error and an unparsable body with the parse
error; every failure is logged and rethrown to the caller. -/
theorem apiCall_spec {β : Type} (endpoint : String) (options : RequestOptions)
    (r : FetchResult β) (p : Page) :
    (∀ v : β, (apiCall endpoint options r p).2 = Except.ok v ↔
      ∃ status, 200 ≤ status ∧ status ≤ 299 ∧ r = FetchResult.response status (Except.ok v)) ∧
    (∀ v : β, (apiCall endpoint options r p).2 = Except.ok v →
      (apiCall endpoint options r p).1 =
        p.emit (Event.fetch endpoint (spread defaultOptions options))) ∧
    (∀ (status : Nat) (json : Except JSError β), r = FetchResult.response status json →
      ¬ (200 ≤ status ∧ status ≤ 299) →
      apiCall endpoint options r p =
        ((p.emit (Event.fetch endpoint (spread defaultOptions options))).emit
            (Event.consoleError "API call failed:" ("HTTP error! status: " ++ toString status)),
          Except.error ⟨"HTTP error! status: " ++ toString status⟩)) ∧
    (∀ error : JSError, r = FetchResult.networkError error →
      apiCall endpoint options r p =
        ((p.emit (Event.fetch endpoint (spread defaultOptions options))).emit
            (Event.consoleError "API call failed:" error.message),
          Except.error error)) ∧
    (∀ (status : Nat) (error : JSError), r = FetchResult.response status (Except.error error) →
      200 ≤ status ∧ status ≤ 299 →
      apiCall endpoint options r p =
        ((p.emit (Event.fetch endpoint (spread defaultOptions options))).emit
            (Event.consoleError "API call failed:" error.message),
          Except.error error)) := by
  refine ⟨?_, ?_, ?_, ?_, ?_⟩
  · intro v
    rcases r with e | ⟨status, json⟩
    · simp [apiCall, apiCallSettle, apiCallTry]
    · by_cases hok : 200 ≤ status ∧ status ≤ 299
      · rcases json with e | w
        · simp [apiCall, apiCallSettle, apiCallTry, responseOk, hok]
        · simp only [apiCall, apiCallSettle, apiCallTry, responseOk, hok, decide_True,
            Bool.and_self, Bool.not_true, Bool.false_eq_true, if_false, Except.ok.injEq,
            FetchResult.response.injEq]
          constructor
          · intro hw
            exact ⟨status, hok.1, hok.2, rfl, hw⟩
          · rintro ⟨_, _, _, _, hw⟩
            exact hw
      · have : responseOk status = false := by
          simp only [responseOk, Bool.and_eq_false_iff, decide_eq_false_iff_not]
          tauto
        simp only [apiCall, apiCallSettle, apiCallTry, this]
        simp
        intro s h1 h2 h3
        exact fun _ => hok ⟨h3 ▸ h1, h3 ▸ h2⟩
  · intro v hv
    rcases r with e | ⟨status, json⟩
    · simp [apiCall, apiCallSettle, apiCallTry] at hv
    · by_cases hok : responseOk status = true
      · rcases json with e | w <;>
          simp_all [apiCall, apiCallSettle, apiCallTry, apiCallIssue]
      · simp_all [apiCall, apiCallSettle, apiCallTry]
  · intro status json hr hn
    have : responseOk status = false := by
      simp only [responseOk, Bool.and_eq_false_iff, decide_eq_false_iff_not]
      tauto
    subst hr
    simp [apiCall, apiCallSettle, apiCallTry, apiCallIssue, this]
  · intro error hr
    subst hr
    simp [apiCall, apiCallSettle, apiCallTry, apiCallIssue]
  · intro status error hr hok
    subst hr
    simp [apiCall, apiCallSettle, apiCallTry, apiCallIssue, responseOk, hok]

/-- Witness of C8: a POST answered with status 503. -/
theorem apiCall_spec_witness :
    apiCall "/api/scan/quick" { method := some "POST" }
        (FetchResult.response 503 (Except.ok ()) : FetchResult Unit) freshPage =
      ((freshPage.emit (Event.fetch "/api/scan/quick"
            (spread defaultOptions { method := some "POST" }))).emit
          (Event.consoleError "API call failed:" ("HTTP error! status: " ++ toString 503)),
        Except.error ⟨"HTTP error! status: " ++ toString 503⟩) :=
  (apiCall_spec "/api/scan/quick" { method := some "POST" }
    (FetchResult.response 503 (Except.ok ())) freshPage).2.2.1 503 (Except.ok ()) rfl (by decide)

/-! ### Single-result card -/

set_option maxRecDepth 1000000 in
/-- C9 as stated fails: a successful custom scan whose `scan_duration` is present
and equal to 0 is rendered without a Duration line. -/
theorem displayScanResults_duration_zero :
    zeroDurationResponse.scan_type ≠ "quick" ∧ zeroDurationResponse.result.success = true ∧
    zeroDurationResponse.result.scan_duration = some 0 ∧
    displayScanResults sampleHost zeroDurationResponse freshPage =
      { modalInstance := false
        log := [Event.setInnerHTML "scanResults"
          ("<div class=\"scan-result success fade-in\">" ++
            "<h6><i class=\"fas fa-search me-2\"></i>Custom Scan Results</h6>" ++
            "<div class=\"mb-2\">\n                <strong>Status:</strong> \n                <span class=\"safe-badge\">Clean</span>\n            </div>" ++
            "</div>")] } ∧
    ¬ ("Duration".data <:+: (singleScanHtml sampleHost zeroDurationResponse).data) := by
  refine ⟨by decide, rfl, rfl, rfl, by decide⟩

/-- C9, amended: for a response whose `scan_type` is not `quick`, the results
container is replaced by the single card: on success the status badge, the Duration
line when `scan_duration` is present and not zero, and the list of infected files
(one item per element, in order) when the count is positive and the list is present;
on failure the server's error string and nothing else. -/
theorem displayScanResults_single (h : Host) (result : ScanResponse) (p : Page)
    (hq : result.scan_type ≠ "quick") :
    displayScanResults h result p =
      p.emit (Event.setInnerHTML "scanResults"
        (singleCard h result.scan_type result.result)) := by
  unfold displayScanResults
  rw [if_neg hq, singleScanHtml_eq]

/-- Witness of C9: an upload scan that failed on the server. -/
theorem displayScanResults_single_witness :
    displayScanResults sampleHost
        { scan_type := "upload", results := []
          result := ⟨false, none, none, none, some "scanner unavailable"⟩ }
        freshPage =
      { modalInstance := false
        log := [Event.setInnerHTML "scanResults"
          ("<div class=\"scan-result error fade-in\">" ++
            "<h6><i class=\"fas fa-search me-2\"></i>Upload Scan Results</h6>" ++
            "<div class=\"text-danger\"><strong>Error:</strong> scanner unavailable</div>" ++
            "</div>")] } :=
  (displayScanResults_single sampleHost _ _ (by decide)).trans rfl

/-! ### Unit table -/

/-- C10: for a byte count `b ≥ 1` the unit index of `formatFileSize` is inside the
four-element unit table exactly when `b < 1024^4`; for `1 ≤ b < 1024^4` the result
is a number of hundredths between 1.00 and 1024.00, a space and one of the four
unit names. -/
theorem formatFileSize_unit_in_table :
    (∀ b : Nat, 1 ≤ b → (unitIndex b < sizes.length ↔ b < 1024 ^ 4)) ∧
    ∀ b : Nat, 1 ≤ b → b < 1024 ^ 4 →
      ∃ (n : Nat) (unit : String), unit ∈ sizes ∧ sizes[unitIndex b]? = some unit ∧
        100 ≤ n ∧ n ≤ 102400 ∧
        formatFileSize b = hundredthsToString n ++ " " ++ unit := by
  have hidx : ∀ b : Nat, 1 ≤ b → (unitIndex b < sizes.length ↔ b < 1024 ^ 4) := by
    intro b hb
    have : sizes.length = 4 := rfl
    rw [this]
    exact (Nat.lt_pow_iff_log_lt (by norm_num) (by omega)).symm
  refine ⟨hidx, ?_⟩
  intro b hb hlt
  have hi : unitIndex b < 4 := (hidx b hb).2 hlt
  have h1 : 1024 ^ unitIndex b ≤ b := Nat.pow_log_le_self 1024 (by omega)
  have h2 : b < 1024 ^ (unitIndex b + 1) := Nat.lt_pow_succ_log_self (by norm_num) b
  obtain ⟨unit, hu⟩ : ∃ unit, sizes[unitIndex b]? = some unit := by
    generalize unitIndex b = i at hi
    interval_cases i <;> simp [sizes]
  obtain ⟨b1, b2⟩ := hundredths_bounds b (unitIndex b) h1 h2
  refine ⟨_, unit, ?_, hu, b1, b2, ?_⟩
  · exact List.getElem?_mem hu
  · rw [formatFileSize_eq b (unitIndex b) h1 h2, List.getD_eq_getElem?_getD, hu]
    rfl

/-- Witness of C10: one mebibyte minus one byte is shown as 1024 KB. -/
theorem formatFileSize_unit_in_table_witness :
    (unitIndex 1048575 < sizes.length ↔ 1048575 < 1024 ^ 4) ∧
    ∃ (n : Nat) (unit : String), unit ∈ sizes ∧ sizes[unitIndex 1048575]? = some unit ∧
      100 ≤ n ∧ n ≤ 102400 ∧ formatFileSize 1048575 = hundredthsToString n ++ " " ++ unit :=
  ⟨formatFileSize_unit_in_table.1 1048575 (by decide),
   formatFileSize_unit_in_table.2 1048575 (by decide) (by decide)⟩

end SolidBeam
